import Mathlib

/-!
Verification of the unifi decoding layer and of the UDM point projection.

Shallow embedding of

* `FlexInt.UnmarshalJSON` (src/unidev.go), the decoder of fields that arrive as
  JSON numbers or JSON strings, and
* `UDM.PointsAt` (src/udm_influx.go), the projection of a device record into
  InfluxDB points, and
* `IPGeo.UnmarshalJSON`, which src/events_test.go exercises and whose source is
  not among the files: it is modelled from the specification.

The Go standard library (`encoding/json`, `strconv`) and the InfluxDB client
(`influx.NewPoint`) are external to the repository: they are parameters of the
embedding, so every general theorem holds for whatever they compute.
-/

set_option autoImplicit false
set_option linter.dupNamespace false

namespace Unifi

/-! ## Values shared by both parts -/

/-- Go `error` values, identified by their message. -/
abbrev Error := String

/-- Go `[]byte`: the sequence of byte values. -/
abbrev Bytes := List Nat

/-- Go `float64`, given by its IEEE-754 binary64 bit pattern. The code of the
repository only stores and copies such values, it never computes with them. -/
structure Float64 where
  bits : Nat
  deriving DecidableEq, Repr

/-- The zero value of `float64` (`+0`, all bits clear). -/
def Float64.zero : Float64 := ⟨0⟩

/-- The bit pattern of `+Inf`. -/
def Float64.posInf : Float64 := ⟨0x7FF0000000000000⟩

/-- The bit pattern of `123`. -/
def Float64.f123 : Float64 := ⟨0x405EC00000000000⟩

/-! ## src/unidev.go: FlexInt -/

/-- The dynamic value that `json.Unmarshal(b, &unk)` stores in an
`interface{}`: `nil`, `bool`, `float64`, `string`, `[]interface{}` or
`map[string]interface{}`. -/
inductive JSONValue where
  | null
  | bool (b : Bool)
  | float64 (n : Float64)
  | string (s : String)
  | slice (elems : List JSONValue)
  | map (members : List (String × JSONValue))

/-- The library functions `FlexInt.UnmarshalJSON` calls. `ParseFloat` returns,
as in Go, a value together with an optional error. -/
structure GoLib where
  /-- The call `json.Unmarshal(b, &unk)` with `unk` an empty interface. -/
  jsonUnmarshal : Bytes → Except Error JSONValue
  /-- The call `strconv.FormatFloat(f, fmt, prec, bitSize)`. -/
  FormatFloat : Float64 → Char → Int → Nat → String
  /-- The call `strconv.ParseFloat(s, bitSize)`: the value and the error it returns. -/
  ParseFloat : String → Nat → Float64 × Option Error

/-- The type `FlexInt` (unidev.go:37): a container for fields that may be numbers or
strings in the Unifi API. -/
structure FlexInt where
  Number : Float64 := Float64.zero
  String : String := ""
  deriving DecidableEq, Repr

/-- The method `FlexInt.UnmarshalJSON` (unidev.go:43). The receiver is passed in and the
receiver after the call is returned together with the returned error. -/
def FlexInt.UnmarshalJSON (lib : GoLib) (f : FlexInt) (b : Bytes) : FlexInt × Option Error :=
  match lib.jsonUnmarshal b with
  | .error err => (f, some err)
  | .ok unk =>
    match unk with
    | .float64 i =>
      let f := { f with Number := i }
      let f := { f with String := lib.FormatFloat i 'f' (-1) 64 }
      (f, none)
    | .string i =>
      let f := { f with String := i }
      let f := { f with Number := (lib.ParseFloat i 64).1 }
      (f, none)
    | _ => (f, some "Cannot unmarshal to FlexInt")

/-- The ASCII bytes of a text. -/
def asciiBytes (s : String) : Bytes := s.toList.map Char.toNat

/-- What the Go library returns on the handful of inputs used as concrete
instances below: `json.Unmarshal` on six documents (everything else is
reported as invalid), `strconv.FormatFloat` on `123`, and `strconv.ParseFloat`
on a number, on an out-of-range number (Go returns `±Inf` with `ErrRange`) and
on text that is not a number (Go returns `0` with `ErrSyntax`). -/
def sampleLib : GoLib where
  jsonUnmarshal := fun b =>
    if b = asciiBytes "[]" then .ok (.slice [])
    else if b = asciiBytes "123" then .ok (.float64 Float64.f123)
    else if b = asciiBytes "\"123\"" then .ok (.string "123")
    else if b = asciiBytes "\"1e400\"" then .ok (.string "1e400")
    else if b = asciiBytes "\"auto\"" then .ok (.string "auto")
    else if b = asciiBytes "true" then .ok (.bool true)
    else .error "invalid character"
  FormatFloat := fun f _ _ _ => if f = Float64.f123 then "123" else ""
  ParseFloat := fun s _ =>
    if s = "123" then (Float64.f123, none)
    else if s = "1e400" then (Float64.posInf, some "value out of range")
    else (Float64.zero, some "invalid syntax")

/-! ## src/udm_influx.go: the device record -/

/-- Modelled from the spec: the FlexibleScalar type of the record fields, whose
declaration is not among the sources ("a decoded value that retains both a
numeric and a textual representation"). `PointsAt` selects the numeric form as
`.Val` and the text form as `.Txt`. -/
structure FlexibleScalar where
  Val : Float64 := Float64.zero
  Txt : String := ""
  deriving DecidableEq, Repr

/-- Go `time.Time`, an instant. `PointsAt` only passes it on to the sink. -/
structure Time where
  unixNano : Int
  deriving DecidableEq, Repr

/-- Go `map[string]string`, written as the key/value pairs of the map literal
in source order (Go rejects a literal with a repeated constant key). -/
abbrev Tags := List (String × String)

/-- A value of a `map[string]interface{}` field map: `PointsAt` stores
`float64` and `string` values only. -/
inductive FieldValue where
  | float64 (v : Float64)
  | string (s : String)
  deriving DecidableEq, Repr

/-- Go `map[string]interface{}`, as the pairs of the map literal in source order. -/
abbrev Fields := List (String × FieldValue)

/-- The value stored under a key of a map literal. -/
def lookup {V : Type} (k : String) : List (String × V) → Option V
  | [] => none
  | (k', v) :: rest => if k' = k then some v else lookup k rest

/-- The sink `influx.NewPoint(name, tags, fields, t)`: it returns a point of
some type `P` or an error. -/
abbrev Sink (P : Type) := String → Tags → Fields → Time → Except Error P

/-- Modelled from the spec: the members of `u.ConfigNetwork` that `PointsAt`
reads; the type declaration is not among the sources. -/
structure ConfigNetwork where
  IP : String := ""
  Type_ : String := ""
  deriving DecidableEq, Repr

/-- Modelled from the spec: the members of `u.Wan1` and `u.Wan2` that
`PointsAt` reads; the type declaration is not among the sources. -/
structure Wan where
  BytesR : FlexibleScalar := {}
  Enable : FlexibleScalar := {}
  FullDuplex : FlexibleScalar := {}
  Gateway : String := ""
  Ifname : String := ""
  IP : String := ""
  Mac : String := ""
  MaxSpeed : FlexibleScalar := {}
  Name : String := ""
  Netmask : String := ""
  RxBytes : FlexibleScalar := {}
  RxBytesR : FlexibleScalar := {}
  RxDropped : FlexibleScalar := {}
  RxErrors : FlexibleScalar := {}
  RxMulticast : FlexibleScalar := {}
  RxPackets : FlexibleScalar := {}
  Type_ : String := ""
  Speed : FlexibleScalar := {}
  Up : FlexibleScalar := {}
  TxBytes : FlexibleScalar := {}
  TxBytesR : FlexibleScalar := {}
  TxDropped : FlexibleScalar := {}
  TxErrors : FlexibleScalar := {}
  TxPackets : FlexibleScalar := {}
  deriving DecidableEq, Repr

/-- Modelled from the spec: the members of `u.SpeedtestStatus` that `PointsAt`
reads; the type declaration is not among the sources. -/
structure SpeedtestStatus where
  Latency : FlexibleScalar := {}
  Rundate : FlexibleScalar := {}
  Runtime : FlexibleScalar := {}
  StatusDownload : FlexibleScalar := {}
  StatusPing : FlexibleScalar := {}
  StatusSummary : FlexibleScalar := {}
  StatusUpload : FlexibleScalar := {}
  XputDownload : FlexibleScalar := {}
  XputUpload : FlexibleScalar := {}
  deriving DecidableEq, Repr

/-- Modelled from the spec: the members of `u.SysStats` that `PointsAt` reads;
the type declaration is not among the sources. -/
structure SysStats where
  Loadavg1 : FlexibleScalar := {}
  Loadavg5 : FlexibleScalar := {}
  Loadavg15 : FlexibleScalar := {}
  MemUsed : FlexibleScalar := {}
  MemBuffer : FlexibleScalar := {}
  MemTotal : FlexibleScalar := {}
  deriving DecidableEq, Repr

/-- Modelled from the spec: the members of `u.SystemStats` that `PointsAt`
reads; the type declaration is not among the sources. -/
structure SystemStats where
  CPU : FlexibleScalar := {}
  Mem : FlexibleScalar := {}
  Uptime : FlexibleScalar := {}
  deriving DecidableEq, Repr

/-- Modelled from the spec: the members of `u.Uplink` that `PointsAt` reads;
the type declaration is not among the sources. -/
structure Uplink where
  Name : String := ""
  Latency : FlexibleScalar := {}
  Speed : FlexibleScalar := {}
  NumPort : FlexibleScalar := {}
  MaxSpeed : FlexibleScalar := {}
  deriving DecidableEq, Repr

/-- Modelled from the spec: the gateway-role statistics block `gw` embedded by
pointer in `u.Stat`, with the members `PointsAt` reads (`u.Stat.gw.Oid` and
the promoted `u.Stat.Gw`, `u.Stat.Lan...`, `u.Stat.Wan...`); the type
declaration is not among the sources. All defaults are Go zero values, so
`{}` is `gw{}`. -/
structure Gw where
  Oid : String := ""
  Gw : String := ""
  LanRxBytes : FlexibleScalar := {}
  LanRxPackets : FlexibleScalar := {}
  LanTxBytes : FlexibleScalar := {}
  LanTxPackets : FlexibleScalar := {}
  WanRxBytes : FlexibleScalar := {}
  WanRxDropped : FlexibleScalar := {}
  WanRxPackets : FlexibleScalar := {}
  WanTxBytes : FlexibleScalar := {}
  WanTxPackets : FlexibleScalar := {}
  deriving DecidableEq, Repr

/-- Modelled from the spec: the switch-role statistics block `sw` embedded by
pointer in `u.Stat`, with the members `PointsAt` reads (`u.Stat.sw.Oid` and
the promoted `u.Stat.Bytes`, `u.Stat.Rx...`, `u.Stat.Tx...`); the type
declaration is not among the sources. `{}` is `sw{}`. -/
structure Sw where
  Oid : String := ""
  Bytes : FlexibleScalar := {}
  RxBytes : FlexibleScalar := {}
  RxCrypts : FlexibleScalar := {}
  RxDropped : FlexibleScalar := {}
  RxErrors : FlexibleScalar := {}
  RxFrags : FlexibleScalar := {}
  RxPackets : FlexibleScalar := {}
  TxBytes : FlexibleScalar := {}
  TxDropped : FlexibleScalar := {}
  TxErrors : FlexibleScalar := {}
  TxPackets : FlexibleScalar := {}
  TxRetries : FlexibleScalar := {}
  deriving DecidableEq, Repr

/-- Modelled from the spec: `u.Stat`, which embeds the two statistics blocks by
pointer; `none` is the nil pointer of a disabled device. -/
structure Stat where
  gw : Option Gw := none
  sw : Option Sw := none
  deriving DecidableEq, Repr

/-- Modelled from the spec: an entry of `u.NetworkTable`, with the members
`PointsAt` reads; the type declaration is not among the sources. -/
structure Network where
  Up : FlexibleScalar := {}
  DhcpdDNSEnabled : FlexibleScalar := {}
  DhcpdEnabled : FlexibleScalar := {}
  DhcpdTimeOffsetEnabled : FlexibleScalar := {}
  DhcpRelayEnabled : FlexibleScalar := {}
  DhcpdGatewayEnabled : FlexibleScalar := {}
  Enabled : FlexibleScalar := {}
  VlanEnabled : FlexibleScalar := {}
  AttrNoDelete : FlexibleScalar := {}
  IsGuest : FlexibleScalar := {}
  IsNat : FlexibleScalar := {}
  Networkgroup : String := ""
  SiteID : String := ""
  DomainName : String := ""
  DhcpdStart : String := ""
  DhcpdStop : String := ""
  IP : String := ""
  IPSubnet : String := ""
  Mac : String := ""
  Name : String := ""
  NumSta : FlexibleScalar := {}
  Purpose : String := ""
  RxBytes : FlexibleScalar := {}
  RxPackets : FlexibleScalar := {}
  TxBytes : FlexibleScalar := {}
  TxPackets : FlexibleScalar := {}
  Ipv6InterfaceType : String := ""
  AttrHiddenID : String := ""
  deriving DecidableEq, Repr

/-- Modelled from the spec: an entry of `u.PortTable`, with the members
`PointsAt` reads; the type declaration is not among the sources. -/
structure Port where
  Name : String := ""
  Enable : FlexibleScalar := {}
  IsUplink : FlexibleScalar := {}
  Up : FlexibleScalar := {}
  PortconfID : String := ""
  Dot1XMode : String := ""
  Dot1XStatus : String := ""
  StpState : String := ""
  SfpFound : FlexibleScalar := {}
  OpMode : String := ""
  PoeMode : String := ""
  PortPoe : FlexibleScalar := {}
  PortIdx : FlexibleScalar := {}
  PoeEnable : FlexibleScalar := {}
  FlowctrlRx : FlexibleScalar := {}
  FlowctrlTx : FlexibleScalar := {}
  Autoneg : FlexibleScalar := {}
  FullDuplex : FlexibleScalar := {}
  Jumbo : FlexibleScalar := {}
  Masked : FlexibleScalar := {}
  PoeGood : FlexibleScalar := {}
  Media : String := ""
  PoeClass : String := ""
  PoeCaps : FlexibleScalar := {}
  AggregatedBy : FlexibleScalar := {}
  BytesR : FlexibleScalar := {}
  RxBroadcast : FlexibleScalar := {}
  RxBytes : FlexibleScalar := {}
  RxBytesR : FlexibleScalar := {}
  RxDropped : FlexibleScalar := {}
  RxErrors : FlexibleScalar := {}
  RxMulticast : FlexibleScalar := {}
  RxPackets : FlexibleScalar := {}
  Speed : FlexibleScalar := {}
  StpPathcost : FlexibleScalar := {}
  TxBroadcast : FlexibleScalar := {}
  TxBytes : FlexibleScalar := {}
  TxBytesR : FlexibleScalar := {}
  TxDropped : FlexibleScalar := {}
  TxErrors : FlexibleScalar := {}
  TxMulticast : FlexibleScalar := {}
  TxPackets : FlexibleScalar := {}
  PoeCurrent : FlexibleScalar := {}
  PoePower : FlexibleScalar := {}
  PoeVoltage : FlexibleScalar := {}
  deriving DecidableEq, Repr

/-- Modelled from the spec: the device record `UDM`, with the members
`PointsAt` reads; the type declaration is not among the sources. `Type_`
stands for the Go member `Type`. -/
structure UDM where
  ID : String := ""
  Mac : String := ""
  SiteID : String := ""
  SiteName : String := ""
  Adopted : FlexibleScalar := {}
  Name : String := ""
  Cfgversion : String := ""
  ConfigNetwork : ConfigNetwork := {}
  ConnectRequestIP : String := ""
  ConnectRequestPort : String := ""
  DeviceID : String := ""
  GuestToken : String := ""
  InformIP : String := ""
  KnownCfgversion : String := ""
  Model : String := ""
  Serial : String := ""
  Type_ : String := ""
  UsgCaps : FlexibleScalar := {}
  SpeedtestStatusSaved : FlexibleScalar := {}
  Wan1 : Wan := {}
  Wan2 : Wan := {}
  IP : String := ""
  Bytes : FlexibleScalar := {}
  LastSeen : FlexibleScalar := {}
  LicenseState : String := ""
  FwCaps : FlexibleScalar := {}
  GuestNumSta : FlexibleScalar := {}
  RxBytes : FlexibleScalar := {}
  TxBytes : FlexibleScalar := {}
  Uptime : FlexibleScalar := {}
  State : FlexibleScalar := {}
  UserNumSta : FlexibleScalar := {}
  Version : String := ""
  NumDesktop : FlexibleScalar := {}
  NumHandheld : FlexibleScalar := {}
  NumMobile : FlexibleScalar := {}
  SpeedtestStatus : SpeedtestStatus := {}
  SysStats : SysStats := {}
  SystemStats : SystemStats := {}
  Stat : Stat := {}
  Uplink : Uplink := {}
  Locating : FlexibleScalar := {}
  Dot1XPortctrlEnabled : FlexibleScalar := {}
  FlowctrlEnabled : FlexibleScalar := {}
  HasFan : FlexibleScalar := {}
  HasTemperature : FlexibleScalar := {}
  JumboframeEnabled : FlexibleScalar := {}
  StpPriority : String := ""
  StpVersion : String := ""
  Overheating : FlexibleScalar := {}
  NetworkTable : List Network := []
  PortTable : List Port := []
  deriving Repr

/-! ## src/udm_influx.go: UDM.PointsAt -/

/-- The tag map of the "usg" series (udm_influx.go:27-51); `g` is `*u.Stat.gw`. -/
def usgTags (u : UDM) (g : Gw) : Tags :=
  [ ("id", u.ID),
    ("mac", u.Mac),
    ("device_oid", g.Oid),
    ("site_id", u.SiteID),
    ("site_name", u.SiteName),
    ("adopted", u.Adopted.Txt),
    ("name", u.Name),
    ("cfgversion", u.Cfgversion),
    ("config_network_ip", u.ConfigNetwork.IP),
    ("config_network_type", u.ConfigNetwork.Type_),
    ("connect_request_ip", u.ConnectRequestIP),
    ("connect_request_port", u.ConnectRequestPort),
    ("device_id", u.DeviceID),
    ("guest_token", u.GuestToken),
    ("inform_ip", u.InformIP),
    ("known_cfgversion", u.KnownCfgversion),
    ("model", u.Model),
    ("serial", u.Serial),
    ("type", u.Type_),
    ("usg_caps", u.UsgCaps.Txt),
    ("speedtest-status-saved", u.SpeedtestStatusSaved.Txt),
    ("wan1_up", u.Wan1.Up.Txt),
    ("wan2_up", u.Wan2.Up.Txt) ]

/-- The field map of the "usg" series (udm_influx.go:52-150); `g` is `*u.Stat.gw`. -/
def usgFields (u : UDM) (g : Gw) : Fields :=
  [ ("ip", FieldValue.string u.IP),
    ("bytes", FieldValue.float64 u.Bytes.Val),
    ("last_seen", FieldValue.float64 u.LastSeen.Val),
    ("license_state", FieldValue.string u.LicenseState),
    ("fw_caps", FieldValue.float64 u.FwCaps.Val),
    ("guest-num_sta", FieldValue.float64 u.GuestNumSta.Val),
    ("rx_bytes", FieldValue.float64 u.RxBytes.Val),
    ("tx_bytes", FieldValue.float64 u.TxBytes.Val),
    ("uptime", FieldValue.float64 u.Uptime.Val),
    ("state", FieldValue.float64 u.State.Val),
    ("user-num_sta", FieldValue.float64 u.UserNumSta.Val),
    ("version", FieldValue.string u.Version),
    ("num_desktop", FieldValue.float64 u.NumDesktop.Val),
    ("num_handheld", FieldValue.float64 u.NumHandheld.Val),
    ("num_mobile", FieldValue.float64 u.NumMobile.Val),
    ("speedtest-status_latency", FieldValue.float64 u.SpeedtestStatus.Latency.Val),
    ("speedtest-status_rundate", FieldValue.float64 u.SpeedtestStatus.Rundate.Val),
    ("speedtest-status_runtime", FieldValue.float64 u.SpeedtestStatus.Runtime.Val),
    ("speedtest-status_download", FieldValue.float64 u.SpeedtestStatus.StatusDownload.Val),
    ("speedtest-status_ping", FieldValue.float64 u.SpeedtestStatus.StatusPing.Val),
    ("speedtest-status_summary", FieldValue.float64 u.SpeedtestStatus.StatusSummary.Val),
    ("speedtest-status_upload", FieldValue.float64 u.SpeedtestStatus.StatusUpload.Val),
    ("speedtest-status_xput_download", FieldValue.float64 u.SpeedtestStatus.XputDownload.Val),
    ("speedtest-status_xput_upload", FieldValue.float64 u.SpeedtestStatus.XputUpload.Val),
    ("config_network_wan_type", FieldValue.string u.ConfigNetwork.Type_),
    ("wan1_bytes-r", FieldValue.float64 u.Wan1.BytesR.Val),
    ("wan1_enable", FieldValue.float64 u.Wan1.Enable.Val),
    ("wan1_full_duplex", FieldValue.float64 u.Wan1.FullDuplex.Val),
    ("wan1_gateway", FieldValue.string u.Wan1.Gateway),
    ("wan1_ifname", FieldValue.string u.Wan1.Ifname),
    ("wan1_ip", FieldValue.string u.Wan1.IP),
    ("wan1_mac", FieldValue.string u.Wan1.Mac),
    ("wan1_max_speed", FieldValue.float64 u.Wan1.MaxSpeed.Val),
    ("wan1_name", FieldValue.string u.Wan1.Name),
    ("wan1_netmask", FieldValue.string u.Wan1.Netmask),
    ("wan1_rx_bytes", FieldValue.float64 u.Wan1.RxBytes.Val),
    ("wan1_rx_bytes-r", FieldValue.float64 u.Wan1.RxBytesR.Val),
    ("wan1_rx_dropped", FieldValue.float64 u.Wan1.RxDropped.Val),
    ("wan1_rx_errors", FieldValue.float64 u.Wan1.RxErrors.Val),
    ("wan1_rx_multicast", FieldValue.float64 u.Wan1.RxMulticast.Val),
    ("wan1_rx_packets", FieldValue.float64 u.Wan1.RxPackets.Val),
    ("wan1_type", FieldValue.string u.Wan1.Type_),
    ("wan1_speed", FieldValue.float64 u.Wan1.Speed.Val),
    ("wan1_up", FieldValue.float64 u.Wan1.Up.Val),
    ("wan1_tx_bytes", FieldValue.float64 u.Wan1.TxBytes.Val),
    ("wan1_tx_bytes-r", FieldValue.float64 u.Wan1.TxBytesR.Val),
    ("wan1_tx_dropped", FieldValue.float64 u.Wan1.TxDropped.Val),
    ("wan1_tx_errors", FieldValue.float64 u.Wan1.TxErrors.Val),
    ("wan1_tx_packets", FieldValue.float64 u.Wan1.TxPackets.Val),
    ("wan2_bytes-r", FieldValue.float64 u.Wan2.BytesR.Val),
    ("wan2_enable", FieldValue.float64 u.Wan2.Enable.Val),
    ("wan2_full_duplex", FieldValue.float64 u.Wan2.FullDuplex.Val),
    ("wan2_gateway", FieldValue.string u.Wan2.Gateway),
    ("wan2_ifname", FieldValue.string u.Wan2.Ifname),
    ("wan2_ip", FieldValue.string u.Wan2.IP),
    ("wan2_mac", FieldValue.string u.Wan2.Mac),
    ("wan2_max_speed", FieldValue.float64 u.Wan2.MaxSpeed.Val),
    ("wan2_name", FieldValue.string u.Wan2.Name),
    ("wan2_netmask", FieldValue.string u.Wan2.Netmask),
    ("wan2_rx_bytes", FieldValue.float64 u.Wan2.RxBytes.Val),
    ("wan2_rx_bytes-r", FieldValue.float64 u.Wan2.RxBytesR.Val),
    ("wan2_rx_dropped", FieldValue.float64 u.Wan2.RxDropped.Val),
    ("wan2_rx_errors", FieldValue.float64 u.Wan2.RxErrors.Val),
    ("wan2_rx_multicast", FieldValue.float64 u.Wan2.RxMulticast.Val),
    ("wan2_rx_packets", FieldValue.float64 u.Wan2.RxPackets.Val),
    ("wan2_type", FieldValue.string u.Wan2.Type_),
    ("wan2_speed", FieldValue.float64 u.Wan2.Speed.Val),
    ("wan2_up", FieldValue.float64 u.Wan2.Up.Val),
    ("wan2_tx_bytes", FieldValue.float64 u.Wan2.TxBytes.Val),
    ("wan2_tx_bytes-r", FieldValue.float64 u.Wan2.TxBytesR.Val),
    ("wan2_tx_dropped", FieldValue.float64 u.Wan2.TxDropped.Val),
    ("wan2_tx_errors", FieldValue.float64 u.Wan2.TxErrors.Val),
    ("wan2_tx_packets", FieldValue.float64 u.Wan2.TxPackets.Val),
    ("loadavg_1", FieldValue.float64 u.SysStats.Loadavg1.Val),
    ("loadavg_5", FieldValue.float64 u.SysStats.Loadavg5.Val),
    ("loadavg_15", FieldValue.float64 u.SysStats.Loadavg15.Val),
    ("mem_used", FieldValue.float64 u.SysStats.MemUsed.Val),
    ("mem_buffer", FieldValue.float64 u.SysStats.MemBuffer.Val),
    ("mem_total", FieldValue.float64 u.SysStats.MemTotal.Val),
    ("cpu", FieldValue.float64 u.SystemStats.CPU.Val),
    ("mem", FieldValue.float64 u.SystemStats.Mem.Val),
    ("system_uptime", FieldValue.float64 u.SystemStats.Uptime.Val),
    ("gw", FieldValue.string g.Gw),
    ("lan-rx_bytes", FieldValue.float64 g.LanRxBytes.Val),
    ("lan-rx_packets", FieldValue.float64 g.LanRxPackets.Val),
    ("lan-tx_bytes", FieldValue.float64 g.LanTxBytes.Val),
    ("lan-tx_packets", FieldValue.float64 g.LanTxPackets.Val),
    ("wan-rx_bytes", FieldValue.float64 g.WanRxBytes.Val),
    ("wan-rx_dropped", FieldValue.float64 g.WanRxDropped.Val),
    ("wan-rx_packets", FieldValue.float64 g.WanRxPackets.Val),
    ("wan-tx_bytes", FieldValue.float64 g.WanTxBytes.Val),
    ("wan-tx_packets", FieldValue.float64 g.WanTxPackets.Val),
    ("uplink_name", FieldValue.string u.Uplink.Name),
    ("uplink_latency", FieldValue.float64 u.Uplink.Latency.Val),
    ("uplink_speed", FieldValue.float64 u.Uplink.Speed.Val),
    ("uplink_num_ports", FieldValue.float64 u.Uplink.NumPort.Val),
    ("uplink_max_speed", FieldValue.float64 u.Uplink.MaxSpeed.Val) ]

/-- The tag map of the "usw" series (udm_influx.go:156-181); `s` is `*u.Stat.sw`. -/
def uswTags (u : UDM) (s : Sw) : Tags :=
  [ ("id", u.ID),
    ("mac", u.Mac),
    ("device_oid", s.Oid),
    ("site_id", u.SiteID),
    ("site_name", u.SiteName),
    ("name", u.Name),
    ("adopted", u.Adopted.Txt),
    ("cfgversion", u.Cfgversion),
    ("config_network_ip", u.ConfigNetwork.IP),
    ("config_network_type", u.ConfigNetwork.Type_),
    ("device_id", u.DeviceID),
    ("inform_ip", u.InformIP),
    ("known_cfgversion", u.KnownCfgversion),
    ("locating", u.Locating.Txt),
    ("model", u.Model),
    ("serial", u.Serial),
    ("type", u.Type_),
    ("dot1x_portctrl_enabled", u.Dot1XPortctrlEnabled.Txt),
    ("flowctrl_enabled", u.FlowctrlEnabled.Txt),
    ("has_fan", u.HasFan.Txt),
    ("has_temperature", u.HasTemperature.Txt),
    ("jumboframe_enabled", u.JumboframeEnabled.Txt),
    ("stp_priority", u.StpPriority),
    ("stp_version", u.StpVersion) ]

/-- The field map of the "usw" series (udm_influx.go:182-220); `s` is `*u.Stat.sw`. -/
def uswFields (u : UDM) (s : Sw) : Fields :=
  [ ("fw_caps", FieldValue.float64 u.FwCaps.Val),
    ("guest-num_sta", FieldValue.float64 u.GuestNumSta.Val),
    ("ip", FieldValue.string u.IP),
    ("bytes", FieldValue.float64 u.Bytes.Val),
    ("fan_level", FieldValue.float64 Float64.zero),
    ("general_temperature", FieldValue.float64 Float64.zero),
    ("last_seen", FieldValue.float64 u.LastSeen.Val),
    ("license_state", FieldValue.string u.LicenseState),
    ("overheating", FieldValue.float64 u.Overheating.Val),
    ("rx_bytes", FieldValue.float64 u.RxBytes.Val),
    ("tx_bytes", FieldValue.float64 u.TxBytes.Val),
    ("uptime", FieldValue.float64 u.Uptime.Val),
    ("state", FieldValue.float64 u.State.Val),
    ("user-num_sta", FieldValue.float64 u.UserNumSta.Val),
    ("version", FieldValue.string u.Version),
    ("loadavg_1", FieldValue.float64 u.SysStats.Loadavg1.Val),
    ("loadavg_5", FieldValue.float64 u.SysStats.Loadavg5.Val),
    ("loadavg_15", FieldValue.float64 u.SysStats.Loadavg15.Val),
    ("mem_buffer", FieldValue.float64 u.SysStats.MemBuffer.Val),
    ("mem_used", FieldValue.float64 u.SysStats.MemUsed.Val),
    ("mem_total", FieldValue.float64 u.SysStats.MemTotal.Val),
    ("cpu", FieldValue.float64 u.SystemStats.CPU.Val),
    ("mem", FieldValue.float64 u.SystemStats.Mem.Val),
    ("system_uptime", FieldValue.float64 u.SystemStats.Uptime.Val),
    ("stat_bytes", FieldValue.float64 s.Bytes.Val),
    ("stat_rx_bytes", FieldValue.float64 s.RxBytes.Val),
    ("stat_rx_crypts", FieldValue.float64 s.RxCrypts.Val),
    ("stat_rx_dropped", FieldValue.float64 s.RxDropped.Val),
    ("stat_rx_errors", FieldValue.float64 s.RxErrors.Val),
    ("stat_rx_frags", FieldValue.float64 s.RxFrags.Val),
    ("stat_rx_packets", FieldValue.float64 s.TxPackets.Val),
    ("stat_tx_bytes", FieldValue.float64 s.TxBytes.Val),
    ("stat_tx_dropped", FieldValue.float64 s.TxDropped.Val),
    ("stat_tx_errors", FieldValue.float64 s.TxErrors.Val),
    ("stat_tx_packets", FieldValue.float64 s.TxPackets.Val),
    ("stat_tx_retries", FieldValue.float64 s.TxRetries.Val),
    ("uplink_depth", FieldValue.string "0") ]

/-- The tag map of the "usg_networks" series of entry `p` (udm_influx.go:228-246). -/
def networkTags (u : UDM) (p : Network) : Tags :=
  [ ("device_name", u.Name),
    ("device_id", u.ID),
    ("device_mac", u.Mac),
    ("site_name", u.SiteName),
    ("up", p.Up.Txt),
    ("dhcpd_dns_enabled", p.DhcpdDNSEnabled.Txt),
    ("dhcpd_enabled", p.DhcpdEnabled.Txt),
    ("dhcpd_time_offset_enabled", p.DhcpdTimeOffsetEnabled.Txt),
    ("dhcp_relay_enabledy", p.DhcpRelayEnabled.Txt),
    ("dhcpd_gateway_enabled", p.DhcpdGatewayEnabled.Txt),
    ("enabled", p.Enabled.Txt),
    ("vlan_enabled", p.VlanEnabled.Txt),
    ("attr_no_delete", p.AttrNoDelete.Txt),
    ("is_guest", p.IsGuest.Txt),
    ("is_nat", p.IsNat.Txt),
    ("networkgroup", p.Networkgroup),
    ("site_id", p.SiteID) ]

/-- The field map of the "usg_networks" series of entry `p` (udm_influx.go:247-263). -/
def networkFields (p : Network) : Fields :=
  [ ("domain_name", FieldValue.string p.DomainName),
    ("dhcpd_start", FieldValue.string p.DhcpdStart),
    ("dhcpd_stop", FieldValue.string p.DhcpdStop),
    ("ip", FieldValue.string p.IP),
    ("ip_subnet", FieldValue.string p.IPSubnet),
    ("mac", FieldValue.string p.Mac),
    ("name", FieldValue.string p.Name),
    ("num_sta", FieldValue.float64 p.NumSta.Val),
    ("purpose", FieldValue.string p.Purpose),
    ("rx_bytes", FieldValue.float64 p.RxBytes.Val),
    ("rx_packets", FieldValue.float64 p.RxPackets.Val),
    ("tx_bytes", FieldValue.float64 p.TxBytes.Val),
    ("tx_packets", FieldValue.float64 p.TxPackets.Val),
    ("ipv6_interface_type", FieldValue.string p.Ipv6InterfaceType),
    ("attr_hidden_id", FieldValue.string p.AttrHiddenID) ]

/-- The tag map of the "usw_ports" series of entry `p` (udm_influx.go:272-302). -/
def portTags (u : UDM) (p : Port) : Tags :=
  [ ("site_id", u.SiteID),
    ("site_name", u.SiteName),
    ("device_name", u.Name),
    ("name", p.Name),
    ("enable", p.Enable.Txt),
    ("is_uplink", p.IsUplink.Txt),
    ("up", p.Up.Txt),
    ("portconf_id", p.PortconfID),
    ("dot1x_mode", p.Dot1XMode),
    ("dot1x_status", p.Dot1XStatus),
    ("stp_state", p.StpState),
    ("sfp_found", p.SfpFound.Txt),
    ("op_mode", p.OpMode),
    ("poe_mode", p.PoeMode),
    ("port_poe", p.PortPoe.Txt),
    ("port_idx", p.PortIdx.Txt),
    ("port_id", u.Name ++ " Port " ++ p.PortIdx.Txt),
    ("poe_enable", p.PoeEnable.Txt),
    ("flowctrl_rx", p.FlowctrlRx.Txt),
    ("flowctrl_tx", p.FlowctrlTx.Txt),
    ("autoneg", p.Autoneg.Txt),
    ("full_duplex", p.FullDuplex.Txt),
    ("jumbo", p.Jumbo.Txt),
    ("masked", p.Masked.Txt),
    ("poe_good", p.PoeGood.Txt),
    ("media", p.Media),
    ("poe_class", p.PoeClass),
    ("poe_caps", p.PoeCaps.Txt),
    ("aggregated_by", p.AggregatedBy.Txt) ]

/-- The field map of the "usw_ports" series of entry `p` (udm_influx.go:303-325). -/
def portFields (p : Port) : Fields :=
  [ ("dbytes_r", FieldValue.float64 p.BytesR.Val),
    ("rx_broadcast", FieldValue.float64 p.RxBroadcast.Val),
    ("rx_bytes", FieldValue.float64 p.RxBytes.Val),
    ("rx_bytes-r", FieldValue.float64 p.RxBytesR.Val),
    ("rx_dropped", FieldValue.float64 p.RxDropped.Val),
    ("rx_errors", FieldValue.float64 p.RxErrors.Val),
    ("rx_multicast", FieldValue.float64 p.RxMulticast.Val),
    ("rx_packets", FieldValue.float64 p.RxPackets.Val),
    ("speed", FieldValue.float64 p.Speed.Val),
    ("stp_pathcost", FieldValue.float64 p.StpPathcost.Val),
    ("tx_broadcast", FieldValue.float64 p.TxBroadcast.Val),
    ("tx_bytes", FieldValue.float64 p.TxBytes.Val),
    ("tx_bytes-r", FieldValue.float64 p.TxBytesR.Val),
    ("tx_dropped", FieldValue.float64 p.TxDropped.Val),
    ("tx_errors", FieldValue.float64 p.TxErrors.Val),
    ("tx_multicast", FieldValue.float64 p.TxMulticast.Val),
    ("tx_packets", FieldValue.float64 p.TxPackets.Val),
    ("poe_current", FieldValue.float64 p.PoeCurrent.Val),
    ("poe_power", FieldValue.float64 p.PoePower.Val),
    ("poe_voltage", FieldValue.float64 p.PoeVoltage.Val),
    ("full_duplex", FieldValue.float64 p.FullDuplex.Val) ]

/-- What a call of `PointsAt` leaves behind: the receiver after the call, the
returned slice (a nil slice is the empty list) and the returned error. -/
structure PointsResult (P : Type) where
  u : UDM
  points : List P
  err : Option Error

/-- The loop `for _, p := range u.NetworkTable` (udm_influx.go:227-269) over
the entries still to visit, with the slice `points` built so far. -/
def networkLoop {P : Type} (NewPoint : Sink P) (u : UDM) (now : Time) :
    List Network → List P → List P × Option Error
  | [], points => (points, none)
  | p :: rest, points =>
    match NewPoint "usg_networks" (networkTags u p) (networkFields p) now with
    | .error err => (points, some err)
    | .ok pt => networkLoop NewPoint u now rest (points ++ [pt])

/-- The loop `for _, p := range u.PortTable` (udm_influx.go:271-331) over the
entries still to visit, with the slice `points` built so far. -/
def portLoop {P : Type} (NewPoint : Sink P) (u : UDM) (now : Time) :
    List Port → List P → List P × Option Error
  | [], points => (points, none)
  | p :: rest, points =>
    match NewPoint "usw_ports" (portTags u p) (portFields p) now with
    | .error err => (points, some err)
    | .ok pt => portLoop NewPoint u now rest (points ++ [pt])

/-- The receiver after the two nil checks of udm_influx.go:19-26: a nil
statistics block is replaced by a pointer to a zero-valued block. -/
def fillStat (u : UDM) : UDM :=
  let u := if u.Stat.gw = none then { u with Stat := { u.Stat with gw := some {} } } else u
  let u := if u.Stat.sw = none then { u with Stat := { u.Stat with sw := some {} } } else u
  u

/-- The method `UDM.PointsAt` (udm_influx.go:18-333), over a sink `NewPoint`.
The result `none` stands for the run-time panic of reading a member through a
nil statistics pointer (`u.Stat.gw.Oid` and the members promoted from `*gw`
while the "usg" maps are built, `u.Stat.sw.Oid` and the members promoted from
`*sw` while the "usw" maps are built). -/
def PointsAt {P : Type} (NewPoint : Sink P) (u : UDM) (now : Time) : Option (PointsResult P) :=
  let u := fillStat u
  match u.Stat.gw with
  | none => none
  | some g =>
    match NewPoint "usg" (usgTags u g) (usgFields u g) now with
    | .error err => some ⟨u, [], some err⟩
    | .ok pt =>
      let points := [pt]
      match u.Stat.sw with
      | none => none
      | some s =>
        match NewPoint "usw" (uswTags u s) (uswFields u s) now with
        | .error err => some ⟨u, [], some err⟩
        | .ok pt =>
          let points := points ++ [pt]
          match networkLoop NewPoint u now u.NetworkTable points with
          | (points, some err) => some ⟨u, points, some err⟩
          | (points, none) =>
            match portLoop NewPoint u now u.PortTable points with
            | (points, some err) => some ⟨u, points, some err⟩
            | (points, none) => some ⟨u, points, none⟩

/-- The gateway-role statistics block a call of `PointsAt` reads: the block of
the record, or the zero-valued block when the pointer is nil. -/
def UDM.gwStat (u : UDM) : Gw := u.Stat.gw.getD {}

/-- The switch-role statistics block a call of `PointsAt` reads: the block of
the record, or the zero-valued block when the pointer is nil. -/
def UDM.swStat (u : UDM) : Sw := u.Stat.sw.getD {}

/-- A series as handed to the sink: name, tags, fields and timestamp. -/
structure Series where
  name : String
  tags : Tags
  fields : Fields
  time : Time
  deriving DecidableEq, Repr

/-- A sink that accepts every series and returns the series itself as the point. -/
def recordSink : Sink Series := fun name tags fields t => .ok ⟨name, tags, fields, t⟩

/-! ## Concrete instances -/

/-- A timestamp for the concrete instances. -/
def sampleTime : Time := ⟨1500000000⟩

/-- A network-table entry. -/
def sampleNetwork : Network :=
  { Name := "LAN", Up := { Val := ⟨0x3FF0000000000000⟩, Txt := "true" } }

/-- A port-table entry with port index 1. -/
def samplePort1 : Port :=
  { Name := "Port 1", PortIdx := { Val := ⟨0x3FF0000000000000⟩, Txt := "1" } }

/-- A port-table entry with port index 2. -/
def samplePort2 : Port :=
  { Name := "Port 2", PortIdx := { Val := ⟨0x4000000000000000⟩, Txt := "2" } }

/-- A record of a disabled device (both statistics blocks nil) with one
network-table entry and two port-table entries. -/
def sampleUDM : UDM :=
  { ID := "5c0e", Mac := "74:83:c2:00:00:01", Name := "udm", SiteName := "default",
    Wan1 := { Up := { Val := ⟨0x3FF0000000000000⟩, Txt := "true" } },
    NetworkTable := [sampleNetwork],
    PortTable := [samplePort1, samplePort2] }

/-- A sink that rejects the "usw" series and accepts every other series,
returning the series itself as the point. -/
def rejectUsw : Sink Series := fun name tags fields t =>
  if name = "usw" then .error "rejected" else .ok ⟨name, tags, fields, t⟩

/-- The JSON shapes the specification lists as accepted by the FlexibleScalar
decoder: a number, a string, or an empty array. -/
def specAcceptedShape : JSONValue → Bool
  | .float64 _ => true
  | .string _ => true
  | .slice [] => true
  | _ => false

/-- The sample library extended by one more document: `json.Unmarshal` decodes
the empty object to an empty `map[string]interface{}`. -/
def objectLib : GoLib :=
  { sampleLib with
    jsonUnmarshal := fun b =>
      if b = asciiBytes "\x7b\x7d" then .ok (.map []) else sampleLib.jsonUnmarshal b }

/-- A record whose switch-role statistics block is present, with one received
packet and two transmitted packets. -/
def sampleSwitchUDM : UDM :=
  { Name := "udm",
    Stat := { gw := some {},
              sw := some { RxPackets := { Val := ⟨0x3FF0000000000000⟩, Txt := "1" },
                           TxPackets := { Val := ⟨0x4000000000000000⟩, Txt := "2" } } } }

/-- A sink that accepts a series only when it carries the sample timestamp,
returning the series itself as the point. -/
def sampleTimeSink : Sink Series := fun name tags fields t =>
  if t = sampleTime then .ok ⟨name, tags, fields, t⟩ else .error "unexpected timestamp"

/-! ## The geo-IP record (events_test.go) -/

/-- Modelled from the spec: a geo-IP lookup document as far as the decoder looks
at it. The source of the decoder is not among the files, only its test. The
spec names two valid shapes, "object with at least an `asn` integer-or-absent
field" (unknown members are ignored) and the empty array, "a valid no geo data
response"; anything else is a decode error. -/
inductive GeoDocument where
  | emptyArray
  | object (asn : Option Int)
  | malformed (err : Error)
  deriving DecidableEq, Repr

/-- Modelled from the spec: the geo record `IPGeo`, with the member `Asn` that
the test reads; the type declaration is not among the sources. -/
structure IPGeo where
  Asn : Int := 0
  deriving DecidableEq, Repr

/-- Modelled from the spec: the method `IPGeo.UnmarshalJSON`, which is missing
from the sources (events_test.go calls it). "Decoding an empty array must
succeed and leave the field at its zero value, never an error; decoding a
populated object/number proceeds as the normal scalar decode"; "absence of a
field yields its zero value". The receiver is passed in and the receiver after
the call is returned together with the returned error. -/
def IPGeo.UnmarshalJSON (v : IPGeo) : GeoDocument → IPGeo × Option Error
  | .emptyArray => (v, none)
  | .object (some n) => ({ v with Asn := n }, none)
  | .object none => ({ v with Asn := 0 }, none)
  | .malformed err => (v, some err)

/-- The test `TestIPGeoUnmarshalJSON` (events_test.go:10-20) for an `asn` value
`n`: a fresh record decodes the empty array and then the object with `asn`
equal to `n`; the result lists the error and the `Asn` read after each call. -/
def TestIPGeoUnmarshalJSON (n : Int) : (Option Error × Int) × (Option Error × Int) :=
  let i : IPGeo := {}
  let r1 := IPGeo.UnmarshalJSON i .emptyArray
  let r2 := IPGeo.UnmarshalJSON r1.1 (.object (some n))
  ((r1.2, r1.1.Asn), (r2.2, r2.1.Asn))

/-! ## Helper lemmas -/

/-- The two nil checks only touch `u.Stat`, and fill each block with its
dereferenced value (the zero block when it was nil). -/
theorem fillStat_eq (u : UDM) :
    fillStat u = { u with Stat := { gw := some u.gwStat, sw := some u.swStat } } := by
  cases u
  cases ‹Stat› with
  | mk g s => cases g <;> cases s <;> rfl

theorem fillStat_fillStat (u : UDM) : fillStat (fillStat u) = fillStat u := by
  cases u
  cases ‹Stat› with
  | mk g s => cases g <;> cases s <;> rfl

theorem fillStat_gwStat (u : UDM) : (fillStat u).gwStat = u.gwStat := by
  rw [fillStat_eq]; rfl

theorem fillStat_swStat (u : UDM) : (fillStat u).swStat = u.swStat := by
  rw [fillStat_eq]; rfl

theorem usgTags_fillStat (u : UDM) (g : Gw) : usgTags (fillStat u) g = usgTags u g := by
  rw [fillStat_eq]; rfl

theorem usgFields_fillStat (u : UDM) (g : Gw) : usgFields (fillStat u) g = usgFields u g := by
  rw [fillStat_eq]; rfl

theorem uswTags_fillStat (u : UDM) (s : Sw) : uswTags (fillStat u) s = uswTags u s := by
  rw [fillStat_eq]; rfl

theorem uswFields_fillStat (u : UDM) (s : Sw) : uswFields (fillStat u) s = uswFields u s := by
  rw [fillStat_eq]; rfl

theorem networkTags_fillStat (u : UDM) (p : Network) :
    networkTags (fillStat u) p = networkTags u p := by
  rw [fillStat_eq]; rfl

theorem portTags_fillStat (u : UDM) (p : Port) : portTags (fillStat u) p = portTags u p := by
  rw [fillStat_eq]; rfl

theorem fillStat_NetworkTable (u : UDM) : (fillStat u).NetworkTable = u.NetworkTable := by
  rw [fillStat_eq]

theorem fillStat_PortTable (u : UDM) : (fillStat u).PortTable = u.PortTable := by
  rw [fillStat_eq]

theorem networkLoop_fillStat {P : Type} (NewPoint : Sink P) (u : UDM) (now : Time)
    (l : List Network) (acc : List P) :
    networkLoop NewPoint (fillStat u) now l acc = networkLoop NewPoint u now l acc := by
  induction l generalizing acc with
  | nil => rfl
  | cons p rest ih =>
    simp only [networkLoop, networkTags_fillStat]
    cases NewPoint "usg_networks" (networkTags u p) (networkFields p) now with
    | error e => rfl
    | ok pt => exact ih _

theorem portLoop_fillStat {P : Type} (NewPoint : Sink P) (u : UDM) (now : Time)
    (l : List Port) (acc : List P) :
    portLoop NewPoint (fillStat u) now l acc = portLoop NewPoint u now l acc := by
  induction l generalizing acc with
  | nil => rfl
  | cons p rest ih =>
    simp only [portLoop, portTags_fillStat]
    cases NewPoint "usw_ports" (portTags u p) (portFields p) now with
    | error e => rfl
    | ok pt => exact ih _

/-- After the nil checks neither statistics pointer is nil. -/
theorem fillStat_gw (u : UDM) : (fillStat u).Stat.gw = some u.gwStat := by
  rw [fillStat_eq]

theorem fillStat_sw (u : UDM) : (fillStat u).Stat.sw = some u.swStat := by
  rw [fillStat_eq]

/-- The call `PointsAt` never panics, and its result written over the receiver
as it was before the call. -/
theorem PointsAt_eq {P : Type} (NewPoint : Sink P) (u : UDM) (now : Time) :
    PointsAt NewPoint u now = some
      (match NewPoint "usg" (usgTags u u.gwStat) (usgFields u u.gwStat) now with
      | .error err => ⟨fillStat u, [], some err⟩
      | .ok pt0 =>
        match NewPoint "usw" (uswTags u u.swStat) (uswFields u u.swStat) now with
        | .error err => ⟨fillStat u, [], some err⟩
        | .ok pt1 =>
          match networkLoop NewPoint u now u.NetworkTable [pt0, pt1] with
          | (points, some err) => ⟨fillStat u, points, some err⟩
          | (points, none) =>
            match portLoop NewPoint u now u.PortTable points with
            | (points, some err) => ⟨fillStat u, points, some err⟩
            | (points, none) => ⟨fillStat u, points, none⟩) := by
  simp only [PointsAt, fillStat_gw, fillStat_sw, usgTags_fillStat, usgFields_fillStat,
    uswTags_fillStat, uswFields_fillStat, networkLoop_fillStat,
    portLoop_fillStat, fillStat_NetworkTable, fillStat_PortTable]
  cases NewPoint "usg" (usgTags u u.gwStat) (usgFields u u.gwStat) now with
  | error e => rfl
  | ok pt0 =>
    cases NewPoint "usw" (uswTags u u.swStat) (uswFields u u.swStat) now with
    | error e => rfl
    | ok pt1 =>
      simp only [List.singleton_append]
      cases networkLoop NewPoint u now u.NetworkTable [pt0, pt1] with
      | mk pts e =>
        cases e with
        | some err => rfl
        | none =>
          simp only []
          cases portLoop NewPoint u now u.PortTable pts with
          | mk pts2 e2 => cases e2 <;> rfl

/-- A network loop whose every series is accepted appends one point per entry,
in table order, and reports no error. -/
theorem networkLoop_accept {P : Type} (NewPoint : Sink P) (u : UDM) (now : Time)
    (mk : Network → P) (l : List Network) (acc : List P)
    (h : ∀ p ∈ l, NewPoint "usg_networks" (networkTags u p) (networkFields p) now = .ok (mk p)) :
    networkLoop NewPoint u now l acc = (acc ++ l.map mk, none) := by
  induction l generalizing acc with
  | nil => simp [networkLoop]
  | cons p rest ih =>
    have hp := h p (List.mem_cons_self p rest)
    simp only [networkLoop, hp]
    rw [ih _ (fun q hq => h q (List.mem_cons_of_mem p hq))]
    simp

theorem portLoop_accept {P : Type} (NewPoint : Sink P) (u : UDM) (now : Time)
    (mk : Port → P) (l : List Port) (acc : List P)
    (h : ∀ p ∈ l, NewPoint "usw_ports" (portTags u p) (portFields p) now = .ok (mk p)) :
    portLoop NewPoint u now l acc = (acc ++ l.map mk, none) := by
  induction l generalizing acc with
  | nil => simp [portLoop]
  | cons p rest ih =>
    have hp := h p (List.mem_cons_self p rest)
    simp only [portLoop, hp]
    rw [ih _ (fun q hq => h q (List.mem_cons_of_mem p hq))]
    simp

/-- The result of a call when the sink accepts every series it is handed:
`mk` names the point the sink returns. -/
theorem PointsAt_accept {P : Type} (NewPoint : Sink P) (u : UDM) (now : Time)
    (mk : String → Tags → Fields → Time → P)
    (h : ∀ name tags fields t, NewPoint name tags fields t = .ok (mk name tags fields t)) :
    PointsAt NewPoint u now =
      some ⟨fillStat u,
        mk "usg" (usgTags u u.gwStat) (usgFields u u.gwStat) now ::
        mk "usw" (uswTags u u.swStat) (uswFields u u.swStat) now ::
        (u.NetworkTable.map (fun p => mk "usg_networks" (networkTags u p) (networkFields p) now) ++
         u.PortTable.map (fun p => mk "usw_ports" (portTags u p) (portFields p) now)),
        none⟩ := by
  rw [PointsAt_eq]
  simp only [h]
  rw [networkLoop_accept NewPoint u now
    (fun p => mk "usg_networks" (networkTags u p) (networkFields p) now) _ _ (fun p _ => h _ _ _ _)]
  simp only []
  rw [portLoop_accept NewPoint u now
    (fun p => mk "usw_ports" (portTags u p) (portFields p) now) _ _ (fun p _ => h _ _ _ _)]
  simp

/-- The network loop only appends to the slice it is given. -/
theorem networkLoop_extends {P : Type} (NewPoint : Sink P) (u : UDM) (now : Time)
    (l : List Network) (acc : List P) :
    ∃ rest, (networkLoop NewPoint u now l acc).1 = acc ++ rest := by
  induction l generalizing acc with
  | nil => exact ⟨[], by simp [networkLoop]⟩
  | cons p tl ih =>
    simp only [networkLoop]
    cases NewPoint "usg_networks" (networkTags u p) (networkFields p) now with
    | error e => exact ⟨[], by simp⟩
    | ok pt =>
      obtain ⟨rest, hrest⟩ := ih (acc ++ [pt])
      exact ⟨pt :: rest, by simp [hrest]⟩

/-- The port loop only appends to the slice it is given. -/
theorem portLoop_extends {P : Type} (NewPoint : Sink P) (u : UDM) (now : Time)
    (l : List Port) (acc : List P) :
    ∃ rest, (portLoop NewPoint u now l acc).1 = acc ++ rest := by
  induction l generalizing acc with
  | nil => exact ⟨[], by simp [portLoop]⟩
  | cons p tl ih =>
    simp only [portLoop]
    cases NewPoint "usw_ports" (portTags u p) (portFields p) now with
    | error e => exact ⟨[], by simp⟩
    | ok pt =>
      obtain ⟨rest, hrest⟩ := ih (acc ++ [pt])
      exact ⟨pt :: rest, by simp [hrest]⟩

/-- Once the sink has accepted both device series, the returned slice starts
with their two points, whatever happens in the loops. -/
theorem PointsAt_device_points {P : Type} (NewPoint : Sink P) (u : UDM) (now : Time)
    (pt0 pt1 : P)
    (h0 : NewPoint "usg" (usgTags u u.gwStat) (usgFields u u.gwStat) now = .ok pt0)
    (h1 : NewPoint "usw" (uswTags u u.swStat) (uswFields u u.swStat) now = .ok pt1) :
    ∃ r rest, PointsAt NewPoint u now = some r ∧ r.points = pt0 :: pt1 :: rest := by
  rw [PointsAt_eq, h0, h1]
  simp only []
  obtain ⟨r1, hr1⟩ := networkLoop_extends NewPoint u now u.NetworkTable [pt0, pt1]
  cases hN : networkLoop NewPoint u now u.NetworkTable [pt0, pt1] with
  | mk pts e =>
    rw [hN] at hr1
    simp only at hr1
    cases e with
    | some err => exact ⟨_, r1, rfl, by simp [hr1]⟩
    | none =>
      simp only []
      obtain ⟨r2, hr2⟩ := portLoop_extends NewPoint u now u.PortTable pts
      cases hP : portLoop NewPoint u now u.PortTable pts with
      | mk pts2 e2 =>
        rw [hP] at hr2
        simp only at hr2
        cases e2 <;> exact ⟨_, r1 ++ r2, rfl, by simp [hr2, hr1]⟩

/-- A network loop that meets a rejected series stops there: it returns the
sink's error together with the slice built so far. -/
theorem networkLoop_reject {P : Type} (NewPoint : Sink P) (u : UDM) (now : Time)
    (mk : Network → P) (pre : List Network) (p : Network) (post : List Network)
    (acc : List P) (e : Error)
    (hpre : ∀ q ∈ pre,
      NewPoint "usg_networks" (networkTags u q) (networkFields q) now = .ok (mk q))
    (hp : NewPoint "usg_networks" (networkTags u p) (networkFields p) now = .error e) :
    networkLoop NewPoint u now (pre ++ p :: post) acc = (acc ++ pre.map mk, some e) := by
  induction pre generalizing acc with
  | nil => simp [networkLoop, hp]
  | cons q tl ih =>
    have hq := hpre q (List.mem_cons_self q tl)
    rw [List.cons_append]
    simp only [networkLoop, hq]
    refine (ih _ (fun r hr => hpre r (List.mem_cons_of_mem q hr))).trans ?_
    simp

/-- A port loop that meets a rejected series stops there: it returns the
sink's error together with the slice built so far. -/
theorem portLoop_reject {P : Type} (NewPoint : Sink P) (u : UDM) (now : Time)
    (mk : Port → P) (pre : List Port) (p : Port) (post : List Port)
    (acc : List P) (e : Error)
    (hpre : ∀ q ∈ pre, NewPoint "usw_ports" (portTags u q) (portFields q) now = .ok (mk q))
    (hp : NewPoint "usw_ports" (portTags u p) (portFields p) now = .error e) :
    portLoop NewPoint u now (pre ++ p :: post) acc = (acc ++ pre.map mk, some e) := by
  induction pre generalizing acc with
  | nil => simp [portLoop, hp]
  | cons q tl ih =>
    have hq := hpre q (List.mem_cons_self q tl)
    rw [List.cons_append]
    simp only [portLoop, hq]
    refine (ih _ (fun r hr => hpre r (List.mem_cons_of_mem q hr))).trans ?_
    simp

/-- Rejection of the first series ("usg"): the error is returned with a nil slice. -/
theorem PointsAt_usg_rejected {P : Type} (NewPoint : Sink P) (u : UDM) (now : Time) (e : Error)
    (h0 : NewPoint "usg" (usgTags u u.gwStat) (usgFields u u.gwStat) now = .error e) :
    PointsAt NewPoint u now = some ⟨fillStat u, [], some e⟩ := by
  rw [PointsAt_eq, h0]

/-- Rejection of the second series ("usw"): the error is returned with a nil
slice, without the point of the first series. -/
theorem PointsAt_usw_rejected {P : Type} (NewPoint : Sink P) (u : UDM) (now : Time)
    (pt0 : P) (e : Error)
    (h0 : NewPoint "usg" (usgTags u u.gwStat) (usgFields u u.gwStat) now = .ok pt0)
    (h1 : NewPoint "usw" (uswTags u u.swStat) (uswFields u u.swStat) now = .error e) :
    PointsAt NewPoint u now = some ⟨fillStat u, [], some e⟩ := by
  rw [PointsAt_eq, h0, h1]

/-- Rejection of the series of a network-table entry: the error is returned
with the two device points and the points of the entries before it. -/
theorem PointsAt_network_rejected {P : Type} (NewPoint : Sink P) (u : UDM) (now : Time)
    (pt0 pt1 : P) (mk : Network → P) (pre : List Network) (p : Network)
    (post : List Network) (e : Error)
    (h0 : NewPoint "usg" (usgTags u u.gwStat) (usgFields u u.gwStat) now = .ok pt0)
    (h1 : NewPoint "usw" (uswTags u u.swStat) (uswFields u u.swStat) now = .ok pt1)
    (htab : u.NetworkTable = pre ++ p :: post)
    (hpre : ∀ q ∈ pre,
      NewPoint "usg_networks" (networkTags u q) (networkFields q) now = .ok (mk q))
    (hp : NewPoint "usg_networks" (networkTags u p) (networkFields p) now = .error e) :
    PointsAt NewPoint u now = some ⟨fillStat u, pt0 :: pt1 :: pre.map mk, some e⟩ := by
  rw [PointsAt_eq, h0, h1, htab]
  simp only []
  rw [networkLoop_reject NewPoint u now mk pre p post _ e hpre hp]
  rfl

/-- Rejection of the series of a port-table entry: the error is returned with
the two device points, the points of all network-table entries and the points
of the port-table entries before it. -/
theorem PointsAt_port_rejected {P : Type} (NewPoint : Sink P) (u : UDM) (now : Time)
    (pt0 pt1 : P) (mkN : Network → P) (mk : Port → P) (pre : List Port) (p : Port)
    (post : List Port) (e : Error)
    (h0 : NewPoint "usg" (usgTags u u.gwStat) (usgFields u u.gwStat) now = .ok pt0)
    (h1 : NewPoint "usw" (uswTags u u.swStat) (uswFields u u.swStat) now = .ok pt1)
    (hnet : ∀ q ∈ u.NetworkTable,
      NewPoint "usg_networks" (networkTags u q) (networkFields q) now = .ok (mkN q))
    (htab : u.PortTable = pre ++ p :: post)
    (hpre : ∀ q ∈ pre, NewPoint "usw_ports" (portTags u q) (portFields q) now = .ok (mk q))
    (hp : NewPoint "usw_ports" (portTags u p) (portFields p) now = .error e) :
    PointsAt NewPoint u now =
      some ⟨fillStat u, pt0 :: pt1 :: (u.NetworkTable.map mkN ++ pre.map mk), some e⟩ := by
  rw [PointsAt_eq, h0, h1, htab]
  simp only []
  rw [networkLoop_accept NewPoint u now mkN _ _ hnet]
  simp only []
  rw [portLoop_reject NewPoint u now mk pre p post _ e hpre hp]
  simp

/-! ## Claims about UDM.PointsAt -/

/-- C7, evaluated where the code departs from it: on the sample record with a
sink that accepts the first series ("usg") and rejects the second ("usw"),
`PointsAt` returns the sink's error together with an empty (nil) slice: the
point of the first series, already built, is not returned. -/
theorem PointsAt_second_rejected_drops_first :
    rejectUsw "usg" (usgTags sampleUDM sampleUDM.gwStat) (usgFields sampleUDM sampleUDM.gwStat)
        sampleTime =
      .ok ⟨"usg", usgTags sampleUDM sampleUDM.gwStat, usgFields sampleUDM sampleUDM.gwStat,
        sampleTime⟩ ∧
    rejectUsw "usw" (uswTags sampleUDM sampleUDM.swStat) (uswFields sampleUDM sampleUDM.swStat)
        sampleTime = .error "rejected" ∧
    ∃ r, PointsAt rejectUsw sampleUDM sampleTime = some r ∧
      r.err = some "rejected" ∧ r.points = [] ∧ r.points.length ≠ 1 := by
  refine ⟨rfl, rfl, _, rfl, rfl, rfl, ?_⟩
  decide

/-- C8: a nil gateway-role or switch-role statistics block does not stop
`PointsAt`: the call returns instead of panicking on the nil pointer.
Whenever the sink accepts the two device series, both are emitted (the
returned slice starts with the "usg" point and the "usw" point); when the
gateway block is nil the "usg" series has an empty `device_oid` tag, an empty
`gw` field and zero for every counter drawn from the block, and when the
switch block is nil the "usw" series has an empty `device_oid` tag and zero
for every `stat_` counter. -/
theorem PointsAt_absent_stat {P : Type} (NewPoint : Sink P) (u : UDM) (now : Time)
    (pt0 pt1 : P)
    (h0 : NewPoint "usg" (usgTags u u.gwStat) (usgFields u u.gwStat) now = .ok pt0)
    (h1 : NewPoint "usw" (uswTags u u.swStat) (uswFields u u.swStat) now = .ok pt1) :
    (∃ r rest, PointsAt NewPoint u now = some r ∧ r.points = pt0 :: pt1 :: rest) ∧
    (u.Stat.gw = none →
      lookup "device_oid" (usgTags u u.gwStat) = some "" ∧
      lookup "gw" (usgFields u u.gwStat) = some (FieldValue.string "") ∧
      lookup "lan-rx_bytes" (usgFields u u.gwStat) = some (FieldValue.float64 Float64.zero) ∧
      lookup "lan-rx_packets" (usgFields u u.gwStat) = some (FieldValue.float64 Float64.zero) ∧
      lookup "lan-tx_bytes" (usgFields u u.gwStat) = some (FieldValue.float64 Float64.zero) ∧
      lookup "lan-tx_packets" (usgFields u u.gwStat) = some (FieldValue.float64 Float64.zero) ∧
      lookup "wan-rx_bytes" (usgFields u u.gwStat) = some (FieldValue.float64 Float64.zero) ∧
      lookup "wan-rx_dropped" (usgFields u u.gwStat) = some (FieldValue.float64 Float64.zero) ∧
      lookup "wan-rx_packets" (usgFields u u.gwStat) = some (FieldValue.float64 Float64.zero) ∧
      lookup "wan-tx_bytes" (usgFields u u.gwStat) = some (FieldValue.float64 Float64.zero) ∧
      lookup "wan-tx_packets" (usgFields u u.gwStat) = some (FieldValue.float64 Float64.zero)) ∧
    (u.Stat.sw = none →
      lookup "device_oid" (uswTags u u.swStat) = some "" ∧
      lookup "stat_bytes" (uswFields u u.swStat) = some (FieldValue.float64 Float64.zero) ∧
      lookup "stat_rx_bytes" (uswFields u u.swStat) = some (FieldValue.float64 Float64.zero) ∧
      lookup "stat_rx_crypts" (uswFields u u.swStat) = some (FieldValue.float64 Float64.zero) ∧
      lookup "stat_rx_dropped" (uswFields u u.swStat) = some (FieldValue.float64 Float64.zero) ∧
      lookup "stat_rx_errors" (uswFields u u.swStat) = some (FieldValue.float64 Float64.zero) ∧
      lookup "stat_rx_frags" (uswFields u u.swStat) = some (FieldValue.float64 Float64.zero) ∧
      lookup "stat_rx_packets" (uswFields u u.swStat) = some (FieldValue.float64 Float64.zero) ∧
      lookup "stat_tx_bytes" (uswFields u u.swStat) = some (FieldValue.float64 Float64.zero) ∧
      lookup "stat_tx_dropped" (uswFields u u.swStat) = some (FieldValue.float64 Float64.zero) ∧
      lookup "stat_tx_errors" (uswFields u u.swStat) = some (FieldValue.float64 Float64.zero) ∧
      lookup "stat_tx_packets" (uswFields u u.swStat) = some (FieldValue.float64 Float64.zero) ∧
      lookup "stat_tx_retries" (uswFields u u.swStat) = some (FieldValue.float64 Float64.zero)) := by
  refine ⟨PointsAt_device_points NewPoint u now pt0 pt1 h0 h1, ?_, ?_⟩
  · intro hg
    have hz : u.gwStat = {} := by simp [UDM.gwStat, hg]
    rw [hz]
    exact ⟨rfl, rfl, rfl, rfl, rfl, rfl, rfl, rfl, rfl, rfl, rfl⟩
  · intro hs
    have hz : u.swStat = {} := by simp [UDM.swStat, hs]
    rw [hz]
    exact ⟨rfl, rfl, rfl, rfl, rfl, rfl, rfl, rfl, rfl, rfl, rfl, rfl, rfl⟩

/-- Instance of C8: the sample record has both statistics blocks nil; with the
recording sink the returned slice starts with the "usg" and the "usw" series,
the "usg" series has `wan-rx_bytes = 0` and the "usw" series has
`stat_tx_bytes = 0`. -/
theorem PointsAt_absent_stat_witness :
    sampleUDM.Stat.gw = none ∧ sampleUDM.Stat.sw = none ∧
    (∃ r rest, PointsAt recordSink sampleUDM sampleTime = some r ∧ r.points =
      ⟨"usg", usgTags sampleUDM sampleUDM.gwStat, usgFields sampleUDM sampleUDM.gwStat, sampleTime⟩ ::
      ⟨"usw", uswTags sampleUDM sampleUDM.swStat, uswFields sampleUDM sampleUDM.swStat, sampleTime⟩ ::
      rest) ∧
    lookup "wan-rx_bytes" (usgFields sampleUDM sampleUDM.gwStat)
      = some (FieldValue.float64 Float64.zero) ∧
    lookup "stat_tx_bytes" (uswFields sampleUDM sampleUDM.swStat)
      = some (FieldValue.float64 Float64.zero) :=
  ⟨rfl, rfl,
   (PointsAt_absent_stat recordSink sampleUDM sampleTime _ _ rfl rfl).1,
   ((PointsAt_absent_stat recordSink sampleUDM sampleTime _ _ rfl rfl).2.1 rfl).2.2.2.2.2.2.1,
   ((PointsAt_absent_stat recordSink sampleUDM sampleTime _ _ rfl rfl).2.2 rfl).2.2.2.2.2.2.2.2.1⟩

/-- C9: in every series `PointsAt` emits, each tag whose source is a
FlexibleScalar carries that scalar's text form `.Txt` (the port tag `port_id`
is built from the device name and the text form of the port index); numeric
forms `.Val` appear in field maps only, as for `wan1_up`, which is the text of
`Wan1.Up` as a tag of the "usg" series and its number as a field. The first
conjunct lists the series handed to a sink that accepts them all. -/
theorem PointsAt_tags_text (u : UDM) (now : Time) :
    (∃ r, PointsAt recordSink u now = some r ∧ r.points =
      (⟨"usg", usgTags u u.gwStat, usgFields u u.gwStat, now⟩ : Series) ::
      ⟨"usw", uswTags u u.swStat, uswFields u u.swStat, now⟩ ::
      (u.NetworkTable.map (fun p => ⟨"usg_networks", networkTags u p, networkFields p, now⟩) ++
       u.PortTable.map (fun p => ⟨"usw_ports", portTags u p, portFields p, now⟩))) ∧
    (lookup "adopted" (usgTags u u.gwStat) = some u.Adopted.Txt ∧
     lookup "usg_caps" (usgTags u u.gwStat) = some u.UsgCaps.Txt ∧
     lookup "speedtest-status-saved" (usgTags u u.gwStat) = some u.SpeedtestStatusSaved.Txt ∧
     lookup "wan1_up" (usgTags u u.gwStat) = some u.Wan1.Up.Txt ∧
     lookup "wan2_up" (usgTags u u.gwStat) = some u.Wan2.Up.Txt ∧
     lookup "wan1_up" (usgFields u u.gwStat) = some (FieldValue.float64 u.Wan1.Up.Val) ∧
     lookup "wan2_up" (usgFields u u.gwStat) = some (FieldValue.float64 u.Wan2.Up.Val)) ∧
    (lookup "adopted" (uswTags u u.swStat) = some u.Adopted.Txt ∧
     lookup "locating" (uswTags u u.swStat) = some u.Locating.Txt ∧
     lookup "dot1x_portctrl_enabled" (uswTags u u.swStat) = some u.Dot1XPortctrlEnabled.Txt ∧
     lookup "flowctrl_enabled" (uswTags u u.swStat) = some u.FlowctrlEnabled.Txt ∧
     lookup "has_fan" (uswTags u u.swStat) = some u.HasFan.Txt ∧
     lookup "has_temperature" (uswTags u u.swStat) = some u.HasTemperature.Txt ∧
     lookup "jumboframe_enabled" (uswTags u u.swStat) = some u.JumboframeEnabled.Txt) ∧
    (∀ p : Network,
     lookup "up" (networkTags u p) = some p.Up.Txt ∧
     lookup "dhcpd_dns_enabled" (networkTags u p) = some p.DhcpdDNSEnabled.Txt ∧
     lookup "dhcpd_enabled" (networkTags u p) = some p.DhcpdEnabled.Txt ∧
     lookup "dhcpd_time_offset_enabled" (networkTags u p) = some p.DhcpdTimeOffsetEnabled.Txt ∧
     lookup "dhcp_relay_enabledy" (networkTags u p) = some p.DhcpRelayEnabled.Txt ∧
     lookup "dhcpd_gateway_enabled" (networkTags u p) = some p.DhcpdGatewayEnabled.Txt ∧
     lookup "enabled" (networkTags u p) = some p.Enabled.Txt ∧
     lookup "vlan_enabled" (networkTags u p) = some p.VlanEnabled.Txt ∧
     lookup "attr_no_delete" (networkTags u p) = some p.AttrNoDelete.Txt ∧
     lookup "is_guest" (networkTags u p) = some p.IsGuest.Txt ∧
     lookup "is_nat" (networkTags u p) = some p.IsNat.Txt) ∧
    (∀ p : Port,
     lookup "enable" (portTags u p) = some p.Enable.Txt ∧
     lookup "is_uplink" (portTags u p) = some p.IsUplink.Txt ∧
     lookup "up" (portTags u p) = some p.Up.Txt ∧
     lookup "sfp_found" (portTags u p) = some p.SfpFound.Txt ∧
     lookup "port_poe" (portTags u p) = some p.PortPoe.Txt ∧
     lookup "port_idx" (portTags u p) = some p.PortIdx.Txt ∧
     lookup "port_id" (portTags u p) = some (u.Name ++ " Port " ++ p.PortIdx.Txt) ∧
     lookup "poe_enable" (portTags u p) = some p.PoeEnable.Txt ∧
     lookup "flowctrl_rx" (portTags u p) = some p.FlowctrlRx.Txt ∧
     lookup "flowctrl_tx" (portTags u p) = some p.FlowctrlTx.Txt ∧
     lookup "autoneg" (portTags u p) = some p.Autoneg.Txt ∧
     lookup "full_duplex" (portTags u p) = some p.FullDuplex.Txt ∧
     lookup "jumbo" (portTags u p) = some p.Jumbo.Txt ∧
     lookup "masked" (portTags u p) = some p.Masked.Txt ∧
     lookup "poe_good" (portTags u p) = some p.PoeGood.Txt ∧
     lookup "poe_caps" (portTags u p) = some p.PoeCaps.Txt ∧
     lookup "aggregated_by" (portTags u p) = some p.AggregatedBy.Txt ∧
     lookup "full_duplex" (portFields p) = some (FieldValue.float64 p.FullDuplex.Val)) := by
  refine ⟨⟨_, PointsAt_accept recordSink u now (fun name tags fields t => ⟨name, tags, fields, t⟩)
      (fun _ _ _ _ => rfl), rfl⟩, ?_, ?_, ?_, ?_⟩
  · exact ⟨rfl, rfl, rfl, rfl, rfl, rfl, rfl⟩
  · exact ⟨rfl, rfl, rfl, rfl, rfl, rfl, rfl⟩
  · intro p
    exact ⟨rfl, rfl, rfl, rfl, rfl, rfl, rfl, rfl, rfl, rfl, rfl⟩
  · intro p
    exact ⟨rfl, rfl, rfl, rfl, rfl, rfl, rfl, rfl, rfl, rfl, rfl, rfl, rfl, rfl, rfl, rfl, rfl, rfl⟩

/-! ## Claims about FlexInt.UnmarshalJSON -/

/-- The number branch: a JSON number is stored as the numeric value and the
text is what `strconv.FormatFloat(i, 'f', -1, 64)` returns for it. -/
theorem FlexInt_UnmarshalJSON_number (lib : GoLib) (f : FlexInt) (b : Bytes) (i : Float64)
    (h : lib.jsonUnmarshal b = .ok (.float64 i)) :
    FlexInt.UnmarshalJSON lib f b =
      ({ Number := i, String := lib.FormatFloat i 'f' (-1) 64 }, none) := by
  simp [FlexInt.UnmarshalJSON, h]

/-- C3, as stated, fails: on the document `[]`, which `json.Unmarshal` decodes
to an empty slice, a fresh FlexInt is left untouched but the call returns the
error "Cannot unmarshal to FlexInt" instead of succeeding. -/
theorem FlexInt_empty_array_rejected :
    sampleLib.jsonUnmarshal (asciiBytes "[]") = .ok (.slice []) ∧
    FlexInt.UnmarshalJSON sampleLib {} (asciiBytes "[]") =
      ({ Number := Float64.zero, String := "" }, some "Cannot unmarshal to FlexInt") := by
  constructor <;> rfl

/-- C3, amended: decoding the empty JSON array with `FlexInt.UnmarshalJSON`
returns the error "Cannot unmarshal to FlexInt" and leaves the numeric value
and the text as they were before the call. -/
theorem FlexInt_UnmarshalJSON_empty_array (lib : GoLib) (f : FlexInt) (b : Bytes)
    (h : lib.jsonUnmarshal b = .ok (.slice [])) :
    FlexInt.UnmarshalJSON lib f b = (f, some "Cannot unmarshal to FlexInt") := by
  simp [FlexInt.UnmarshalJSON, h]

/-- Instance of the amended C3 on the document `[]` and a fresh FlexInt. -/
theorem FlexInt_UnmarshalJSON_empty_array_witness :
    sampleLib.jsonUnmarshal (asciiBytes "[]") = .ok (.slice []) ∧
    (FlexInt.UnmarshalJSON sampleLib {} (asciiBytes "[]")).1 = {} ∧
    (FlexInt.UnmarshalJSON sampleLib {} (asciiBytes "[]")).2 = some "Cannot unmarshal to FlexInt" :=
  ⟨rfl,
   congrArg Prod.fst (FlexInt_UnmarshalJSON_empty_array sampleLib {} (asciiBytes "[]") rfl),
   congrArg Prod.snd (FlexInt_UnmarshalJSON_empty_array sampleLib {} (asciiBytes "[]") rfl)⟩

/-- C5, as stated, fails: for the JSON string "1e400" number parsing fails
(`strconv.ParseFloat` returns `+Inf` together with a range error), no error is
returned, and the numeric value is `+Inf`, not zero. -/
theorem FlexInt_string_out_of_range_not_zero :
    sampleLib.jsonUnmarshal (asciiBytes "\"1e400\"") = .ok (.string "1e400") ∧
    (sampleLib.ParseFloat "1e400" 64).2 = some "value out of range" ∧
    (FlexInt.UnmarshalJSON sampleLib {} (asciiBytes "\"1e400\"")).2 = none ∧
    (FlexInt.UnmarshalJSON sampleLib {} (asciiBytes "\"1e400\"")).1.String = "1e400" ∧
    (FlexInt.UnmarshalJSON sampleLib {} (asciiBytes "\"1e400\"")).1.Number = Float64.posInf ∧
    (FlexInt.UnmarshalJSON sampleLib {} (asciiBytes "\"1e400\"")).1.Number ≠ Float64.zero := by
  refine ⟨rfl, rfl, rfl, rfl, rfl, ?_⟩
  decide

/-- C5, amended: for every JSON string `s`, `FlexInt.UnmarshalJSON` returns no
error, stores `s` unchanged as the text, and sets the numeric value to the
value `strconv.ParseFloat(s, 64)` returns, whether or not `ParseFloat` also
reports an error (the error is discarded). -/
theorem FlexInt_UnmarshalJSON_string (lib : GoLib) (f : FlexInt) (b : Bytes) (s : String)
    (h : lib.jsonUnmarshal b = .ok (.string s)) :
    FlexInt.UnmarshalJSON lib f b = ({ Number := (lib.ParseFloat s 64).1, String := s }, none) := by
  simp [FlexInt.UnmarshalJSON, h]

/-- Instance of the amended C5: the JSON string "123" gives number 123 and
text "123"; the JSON string "auto", which is not a number, gives number 0 and
text "auto". -/
theorem FlexInt_UnmarshalJSON_string_witness :
    sampleLib.jsonUnmarshal (asciiBytes "\"123\"") = .ok (.string "123") ∧
    FlexInt.UnmarshalJSON sampleLib {} (asciiBytes "\"123\"") =
      ({ Number := Float64.f123, String := "123" }, none) ∧
    FlexInt.UnmarshalJSON sampleLib {} (asciiBytes "\"auto\"") =
      ({ Number := Float64.zero, String := "auto" }, none) :=
  ⟨rfl,
   FlexInt_UnmarshalJSON_string sampleLib {} (asciiBytes "\"123\"") "123" rfl,
   FlexInt_UnmarshalJSON_string sampleLib {} (asciiBytes "\"auto\"") "auto" rfl⟩

/-- C6, as stated, fails: the empty array is none of the shapes the claim
rejects (it is a shape the specification accepts), yet decoding it returns an
error, so "no error exactly when the shape is accepted" does not hold. -/
theorem FlexInt_accepted_shape_rejected :
    specAcceptedShape (.slice []) = true ∧
    sampleLib.jsonUnmarshal (asciiBytes "[]") = .ok (.slice []) ∧
    (FlexInt.UnmarshalJSON sampleLib { Number := Float64.f123, String := "123" }
      (asciiBytes "[]")).2 ≠ none := by
  refine ⟨rfl, rfl, ?_⟩
  decide

/-- C6, amended: `FlexInt.UnmarshalJSON` returns no error exactly when
`json.Unmarshal` decodes the bytes to a number or to a string; it returns an
error exactly when `json.Unmarshal` fails or the decoded value is null, a
boolean, an array (empty or not) or an object. -/
theorem FlexInt_UnmarshalJSON_error_iff (lib : GoLib) (f : FlexInt) (b : Bytes) :
    ((FlexInt.UnmarshalJSON lib f b).2 = none ↔
      ((∃ n, lib.jsonUnmarshal b = .ok (.float64 n)) ∨
       (∃ s, lib.jsonUnmarshal b = .ok (.string s)))) ∧
    ((FlexInt.UnmarshalJSON lib f b).2 ≠ none ↔
      ((∃ err, lib.jsonUnmarshal b = .error err) ∨
       lib.jsonUnmarshal b = .ok .null ∨
       (∃ x, lib.jsonUnmarshal b = .ok (.bool x)) ∨
       (∃ elems, lib.jsonUnmarshal b = .ok (.slice elems)) ∨
       (∃ members, lib.jsonUnmarshal b = .ok (.map members)))) := by
  unfold FlexInt.UnmarshalJSON
  cases h : lib.jsonUnmarshal b with
  | error e => simp
  | ok v => cases v <;> simp

/-! ## Further helper lemmas -/

/-- The series `PointsAt` hands to a sink that accepts them all, in order. -/
theorem PointsAt_recordSink (u : UDM) (now : Time) :
    PointsAt recordSink u now =
      some ⟨fillStat u,
        (⟨"usg", usgTags u u.gwStat, usgFields u u.gwStat, now⟩ : Series) ::
        ⟨"usw", uswTags u u.swStat, uswFields u u.swStat, now⟩ ::
        (u.NetworkTable.map (fun p => ⟨"usg_networks", networkTags u p, networkFields p, now⟩) ++
         u.PortTable.map (fun p => ⟨"usw_ports", portTags u p, portFields p, now⟩)),
        none⟩ :=
  PointsAt_accept recordSink u now (fun name tags fields t => ⟨name, tags, fields, t⟩)
    (fun _ _ _ _ => rfl)

/-- Position of the point of a first-table entry behind two leading points. -/
theorem getElem?_after_two_left {α β : Type} (a b : β) (l : List α) (f : α → β)
    (rest : List β) (i : Nat) (p : α) (h : l[i]? = some p) :
    (a :: b :: (l.map f ++ rest))[2 + i]? = some (f p) := by
  have hi : i < l.length := (List.getElem?_eq_some_iff.mp h).1
  rw [show 2 + i = i + 1 + 1 by omega]
  simp only [List.getElem?_cons_succ]
  rw [List.getElem?_append_left (by simpa using hi), List.getElem?_map, h]
  rfl

/-- Position of the point of a second-table entry behind two leading points
and the points of the first table. -/
theorem getElem?_after_two_right {α β γ : Type} (a b : γ) (l : List α) (f : α → γ)
    (m : List β) (g : β → γ) (j : Nat) (p : β) (h : m[j]? = some p) :
    (a :: b :: (l.map f ++ m.map g))[2 + l.length + j]? = some (g p) := by
  rw [show 2 + l.length + j = (l.length + j) + 1 + 1 by omega]
  simp only [List.getElem?_cons_succ]
  rw [List.getElem?_append_right (by simp), List.length_map, Nat.add_sub_cancel_left,
    List.getElem?_map, h]
  rfl

/-- Whatever the sink does, the call returns and leaves behind the receiver
with its nil statistics blocks filled. -/
theorem PointsAt_receiver {P : Type} (NewPoint : Sink P) (u : UDM) (now : Time) :
    ∃ r, PointsAt NewPoint u now = some r ∧ r.u = fillStat u := by
  rw [PointsAt_eq]
  refine ⟨_, rfl, ?_⟩
  cases NewPoint "usg" (usgTags u u.gwStat) (usgFields u u.gwStat) now with
  | error e => rfl
  | ok pt0 =>
    cases NewPoint "usw" (uswTags u u.swStat) (uswFields u u.swStat) now with
    | error e => rfl
    | ok pt1 =>
      simp only []
      cases networkLoop NewPoint u now u.NetworkTable [pt0, pt1] with
      | mk pts e =>
        cases e with
        | some err => rfl
        | none =>
          simp only []
          cases portLoop NewPoint u now u.PortTable pts with
          | mk pts2 e2 => cases e2 <;> rfl

/-- A call on the record a first call leaves behind does what the first call did. -/
theorem PointsAt_fillStat {P : Type} (NewPoint : Sink P) (u : UDM) (now : Time) :
    PointsAt NewPoint (fillStat u) now = PointsAt NewPoint u now := by
  rw [PointsAt_eq NewPoint (fillStat u), PointsAt_eq NewPoint u]
  simp only [usgTags_fillStat, usgFields_fillStat, uswTags_fillStat, uswFields_fillStat,
    fillStat_gwStat, fillStat_swStat, networkLoop_fillStat, portLoop_fillStat,
    fillStat_NetworkTable, fillStat_PortTable, fillStat_fillStat]

/-- The network loop only uses the sink at the timestamp it is given. -/
theorem networkLoop_congr {P : Type} (N N' : Sink P) (u : UDM) (now : Time)
    (h : ∀ name tags fields, N name tags fields now = N' name tags fields now)
    (l : List Network) (acc : List P) :
    networkLoop N u now l acc = networkLoop N' u now l acc := by
  induction l generalizing acc with
  | nil => rfl
  | cons p rest ih =>
    simp only [networkLoop, h]
    cases N' "usg_networks" (networkTags u p) (networkFields p) now with
    | error e => rfl
    | ok pt => exact ih _

/-- The port loop only uses the sink at the timestamp it is given. -/
theorem portLoop_congr {P : Type} (N N' : Sink P) (u : UDM) (now : Time)
    (h : ∀ name tags fields, N name tags fields now = N' name tags fields now)
    (l : List Port) (acc : List P) :
    portLoop N u now l acc = portLoop N' u now l acc := by
  induction l generalizing acc with
  | nil => rfl
  | cons p rest ih =>
    simp only [portLoop, h]
    cases N' "usw_ports" (portTags u p) (portFields p) now with
    | error e => rfl
    | ok pt => exact ih _

/-- The whole call only uses the sink at the timestamp it is given. -/
theorem PointsAt_congr {P : Type} (N N' : Sink P) (u : UDM) (now : Time)
    (h : ∀ name tags fields, N name tags fields now = N' name tags fields now) :
    PointsAt N u now = PointsAt N' u now := by
  rw [PointsAt_eq N, PointsAt_eq N']
  simp only [h, networkLoop_congr N N' u now h, portLoop_congr N N' u now h]

/-! ## Claims about the port, gateway and network series -/

/-- C11: for every port-table entry `p` of a record `u`, the series emitted for
`p` (the "usw_ports" series at index `2 + len(NetworkTable) + j` for entry
`j`) has the tag `port_id` equal to the device name, followed by " Port ",
followed by the text form of the port index; its `port_idx` tag is the text
form of the port index and its `device_name` tag is the device name. -/
theorem PointsAt_port_identity (u : UDM) (now : Time) (j : Nat) (p : Port)
    (hp : u.PortTable[j]? = some p) :
    ∃ r s, PointsAt recordSink u now = some r ∧
      r.points[2 + u.NetworkTable.length + j]? = some s ∧
      s.name = "usw_ports" ∧
      lookup "port_id" s.tags = some (u.Name ++ " Port " ++ p.PortIdx.Txt) ∧
      lookup "port_idx" s.tags = some p.PortIdx.Txt ∧
      lookup "device_name" s.tags = some u.Name := by
  refine ⟨_, ⟨"usw_ports", portTags u p, portFields p, now⟩, PointsAt_recordSink u now,
    ?_, rfl, rfl, rfl, rfl⟩
  exact getElem?_after_two_right _ _ u.NetworkTable _ u.PortTable
    (fun p => (⟨"usw_ports", portTags u p, portFields p, now⟩ : Series)) j p hp

/-- Instance of C11: the second port of the sample record "udm", with port
index text "2", is tagged `port_id = "udm Port 2"`. -/
theorem PointsAt_port_identity_witness :
    sampleUDM.PortTable[1]? = some samplePort2 ∧
    ∃ r s, PointsAt recordSink sampleUDM sampleTime = some r ∧
      r.points[4]? = some s ∧
      s.name = "usw_ports" ∧
      lookup "port_id" s.tags = some "udm Port 2" ∧
      lookup "port_idx" s.tags = some "2" ∧
      lookup "device_name" s.tags = some "udm" :=
  ⟨rfl, PointsAt_port_identity sampleUDM sampleTime 1 samplePort2 rfl⟩

/-- C12: for every record, the field map of the gateway-role ("usg") series,
the first series emitted, has the keys `wan1_rx_bytes`,
`speedtest-status_download` and `loadavg_1`, holding the numeric forms of the
WAN1 received-bytes counter, the speedtest download status and the 1-minute
load average; and the tag keys and the field keys of each of the four series
kinds are the same for every record and every table entry. -/
theorem PointsAt_usg_field_keys (u : UDM) (now : Time) :
    (∃ r s, PointsAt recordSink u now = some r ∧ r.points[0]? = some s ∧
      s.name = "usg" ∧
      lookup "wan1_rx_bytes" s.fields = some (FieldValue.float64 u.Wan1.RxBytes.Val) ∧
      lookup "speedtest-status_download" s.fields =
        some (FieldValue.float64 u.SpeedtestStatus.StatusDownload.Val) ∧
      lookup "loadavg_1" s.fields = some (FieldValue.float64 u.SysStats.Loadavg1.Val)) ∧
    (∀ (u' : UDM) (g g' : Gw),
      (usgTags u g).map Prod.fst = (usgTags u' g').map Prod.fst ∧
      (usgFields u g).map Prod.fst = (usgFields u' g').map Prod.fst) ∧
    (∀ (u' : UDM) (s s' : Sw),
      (uswTags u s).map Prod.fst = (uswTags u' s').map Prod.fst ∧
      (uswFields u s).map Prod.fst = (uswFields u' s').map Prod.fst) ∧
    (∀ (u' : UDM) (p p' : Network),
      (networkTags u p).map Prod.fst = (networkTags u' p').map Prod.fst ∧
      (networkFields p).map Prod.fst = (networkFields p').map Prod.fst) ∧
    (∀ (u' : UDM) (p p' : Port),
      (portTags u p).map Prod.fst = (portTags u' p').map Prod.fst ∧
      (portFields p).map Prod.fst = (portFields p').map Prod.fst) := by
  refine ⟨⟨_, ⟨"usg", usgTags u u.gwStat, usgFields u u.gwStat, now⟩,
    PointsAt_recordSink u now, rfl, rfl, rfl, rfl, rfl⟩, ?_, ?_, ?_, ?_⟩
  · intro u' g g'
    exact ⟨rfl, rfl⟩
  · intro u' s s'
    exact ⟨rfl, rfl⟩
  · intro u' p p'
    exact ⟨rfl, rfl⟩
  · intro u' p p'
    exact ⟨rfl, rfl⟩

/-- C13: for every network-table entry `p` of a record `u`, the series emitted
for `p` (the "usg_networks" series at index `2 + i` for entry `i`) carries the
parent device identity in its tags (`device_name`, `device_id`, `device_mac`,
`site_name` from `u`); its remaining tags are the text forms of the flags of
`p` and the two configuration strings `networkgroup` and `site_id` of `p`, and
do not depend on `u`; its fields are the counters of `p` in numeric form and
the identifiers of `p`. -/
theorem PointsAt_network_series (u : UDM) (now : Time) (i : Nat) (p : Network)
    (hp : u.NetworkTable[i]? = some p) :
    ∃ r s, PointsAt recordSink u now = some r ∧ r.points[2 + i]? = some s ∧
      s.name = "usg_networks" ∧
      (lookup "device_name" s.tags = some u.Name ∧
       lookup "device_id" s.tags = some u.ID ∧
       lookup "device_mac" s.tags = some u.Mac ∧
       lookup "site_name" s.tags = some u.SiteName) ∧
      (lookup "up" s.tags = some p.Up.Txt ∧
       lookup "dhcpd_dns_enabled" s.tags = some p.DhcpdDNSEnabled.Txt ∧
       lookup "dhcpd_enabled" s.tags = some p.DhcpdEnabled.Txt ∧
       lookup "dhcpd_time_offset_enabled" s.tags = some p.DhcpdTimeOffsetEnabled.Txt ∧
       lookup "dhcp_relay_enabledy" s.tags = some p.DhcpRelayEnabled.Txt ∧
       lookup "dhcpd_gateway_enabled" s.tags = some p.DhcpdGatewayEnabled.Txt ∧
       lookup "enabled" s.tags = some p.Enabled.Txt ∧
       lookup "vlan_enabled" s.tags = some p.VlanEnabled.Txt ∧
       lookup "attr_no_delete" s.tags = some p.AttrNoDelete.Txt ∧
       lookup "is_guest" s.tags = some p.IsGuest.Txt ∧
       lookup "is_nat" s.tags = some p.IsNat.Txt ∧
       lookup "networkgroup" s.tags = some p.Networkgroup ∧
       lookup "site_id" s.tags = some p.SiteID ∧
       s.tags.length = 17 ∧
       ∀ u' : UDM, s.tags.drop 4 = (networkTags u' p).drop 4) ∧
      (lookup "domain_name" s.fields = some (FieldValue.string p.DomainName) ∧
       lookup "dhcpd_start" s.fields = some (FieldValue.string p.DhcpdStart) ∧
       lookup "dhcpd_stop" s.fields = some (FieldValue.string p.DhcpdStop) ∧
       lookup "ip" s.fields = some (FieldValue.string p.IP) ∧
       lookup "ip_subnet" s.fields = some (FieldValue.string p.IPSubnet) ∧
       lookup "mac" s.fields = some (FieldValue.string p.Mac) ∧
       lookup "name" s.fields = some (FieldValue.string p.Name) ∧
       lookup "num_sta" s.fields = some (FieldValue.float64 p.NumSta.Val) ∧
       lookup "purpose" s.fields = some (FieldValue.string p.Purpose) ∧
       lookup "rx_bytes" s.fields = some (FieldValue.float64 p.RxBytes.Val) ∧
       lookup "rx_packets" s.fields = some (FieldValue.float64 p.RxPackets.Val) ∧
       lookup "tx_bytes" s.fields = some (FieldValue.float64 p.TxBytes.Val) ∧
       lookup "tx_packets" s.fields = some (FieldValue.float64 p.TxPackets.Val) ∧
       lookup "ipv6_interface_type" s.fields = some (FieldValue.string p.Ipv6InterfaceType) ∧
       lookup "attr_hidden_id" s.fields = some (FieldValue.string p.AttrHiddenID) ∧
       s.fields.length = 15) := by
  refine ⟨_, ⟨"usg_networks", networkTags u p, networkFields p, now⟩,
    PointsAt_recordSink u now, ?_, rfl, ⟨rfl, rfl, rfl, rfl⟩,
    ⟨rfl, rfl, rfl, rfl, rfl, rfl, rfl, rfl, rfl, rfl, rfl, rfl, rfl, rfl, fun _ => rfl⟩,
    ⟨rfl, rfl, rfl, rfl, rfl, rfl, rfl, rfl, rfl, rfl, rfl, rfl, rfl, rfl, rfl, rfl⟩⟩
  exact getElem?_after_two_left _ _ u.NetworkTable
    (fun p => (⟨"usg_networks", networkTags u p, networkFields p, now⟩ : Series)) _ i p hp

/-- Instance of C13: the network-table entry of the sample record gives the
series at index 2, tagged with the device name "udm", the device id "5c0e"
and `up = "true"`, with the field `name = "LAN"`. -/
theorem PointsAt_network_series_witness :
    sampleUDM.NetworkTable[0]? = some sampleNetwork ∧
    ∃ r s, PointsAt recordSink sampleUDM sampleTime = some r ∧ r.points[2]? = some s ∧
      s.name = "usg_networks" ∧
      lookup "device_name" s.tags = some "udm" ∧
      lookup "device_id" s.tags = some "5c0e" ∧
      lookup "up" s.tags = some "true" ∧
      lookup "name" s.fields = some (FieldValue.string "LAN") :=
  ⟨rfl,
   (PointsAt_network_series sampleUDM sampleTime 0 sampleNetwork rfl).imp (fun _ hr =>
     hr.imp (fun _ h =>
       ⟨h.1, h.2.1, h.2.2.1, h.2.2.2.1.1, h.2.2.2.1.2.1, h.2.2.2.2.1.1,
        h.2.2.2.2.2.2.2.2.2.2.2.1⟩))⟩

/-! ## Claims about errors, the geo record, the receiver and the timestamp -/

/-- C14, as stated, fails: the error returned for an object and the error
returned for a boolean are the same value, the fixed message "Cannot unmarshal
to FlexInt", which names neither a field nor a JSON kind. -/
theorem FlexInt_error_same_for_object_and_boolean :
    objectLib.jsonUnmarshal (asciiBytes "\x7b\x7d") = .ok (.map []) ∧
    objectLib.jsonUnmarshal (asciiBytes "true") = .ok (.bool true) ∧
    (FlexInt.UnmarshalJSON objectLib {} (asciiBytes "\x7b\x7d")).2 =
      (FlexInt.UnmarshalJSON objectLib {} (asciiBytes "true")).2 ∧
    (FlexInt.UnmarshalJSON objectLib {} (asciiBytes "\x7b\x7d")).2 =
      some "Cannot unmarshal to FlexInt" := by
  refine ⟨rfl, rfl, rfl, rfl⟩

/-- C14, amended: when `FlexInt.UnmarshalJSON` rejects a value of an unaccepted
JSON shape (anything `json.Unmarshal` decodes that is neither a number nor a
string), the error it returns is the fixed error "Cannot unmarshal to
FlexInt", the same for every rejected shape and every field. -/
theorem FlexInt_UnmarshalJSON_rejected_error (lib : GoLib) (f : FlexInt) (b : Bytes)
    (v : JSONValue) (h : lib.jsonUnmarshal b = .ok v)
    (hn : ∀ n, v ≠ .float64 n) (hs : ∀ s, v ≠ .string s) :
    (FlexInt.UnmarshalJSON lib f b).2 = some "Cannot unmarshal to FlexInt" := by
  unfold FlexInt.UnmarshalJSON
  rw [h]
  cases v with
  | float64 n => exact absurd rfl (hn n)
  | string s => exact absurd rfl (hs s)
  | null => rfl
  | bool x => rfl
  | slice elems => rfl
  | map members => rfl

/-- Instance of the amended C14: the document `true`. -/
theorem FlexInt_UnmarshalJSON_rejected_error_witness :
    sampleLib.jsonUnmarshal (asciiBytes "true") = .ok (.bool true) ∧
    (FlexInt.UnmarshalJSON sampleLib {} (asciiBytes "true")).2 =
      some "Cannot unmarshal to FlexInt" :=
  ⟨rfl, FlexInt_UnmarshalJSON_rejected_error sampleLib {} (asciiBytes "true") (.bool true) rfl
    (fun _ h => JSONValue.noConfusion h) (fun _ h => JSONValue.noConfusion h)⟩

/-- C15: decoding a geo-IP document with `IPGeo.UnmarshalJSON`: the empty array
returns no error and leaves the record as it was, so `Asn` stays 0 in a fresh
record; every object with an integer `asn` member `n` returns no error and
sets `Asn` to `n`; and the test, which decodes the empty array and then the
object with `asn` 123 into the same fresh record, reads 0 and then 123. -/
theorem IPGeo_UnmarshalJSON_asn :
    IPGeo.UnmarshalJSON {} .emptyArray = ({ Asn := 0 }, none) ∧
    (∀ v : IPGeo, IPGeo.UnmarshalJSON v .emptyArray = (v, none)) ∧
    (∀ (v : IPGeo) (n : Int),
      (IPGeo.UnmarshalJSON v (.object (some n))).2 = none ∧
      (IPGeo.UnmarshalJSON v (.object (some n))).1.Asn = n) ∧
    (∀ n : Int, TestIPGeoUnmarshalJSON n = ((none, 0), (none, n))) ∧
    TestIPGeoUnmarshalJSON 123 = ((none, 0), (none, 123)) :=
  ⟨rfl, fun _ => rfl, fun _ _ => ⟨rfl, rfl⟩, fun _ => rfl, rfl⟩

/-- C16, evaluated where the code departs from it: in the "usw" series of a
record whose switch statistics block has one received packet and two
transmitted packets, the field `stat_rx_packets` holds the transmitted-packets
counter (2), not the received-packets counter (1). -/
theorem PointsAt_stat_rx_packets_is_tx :
    sampleSwitchUDM.swStat.RxPackets.Val = ⟨0x3FF0000000000000⟩ ∧
    sampleSwitchUDM.swStat.TxPackets.Val = ⟨0x4000000000000000⟩ ∧
    ∃ r s, PointsAt recordSink sampleSwitchUDM sampleTime = some r ∧
      r.points[1]? = some s ∧ s.name = "usw" ∧
      lookup "stat_rx_packets" s.fields = some (FieldValue.float64 ⟨0x4000000000000000⟩) ∧
      lookup "stat_rx_packets" s.fields ≠
        some (FieldValue.float64 sampleSwitchUDM.swStat.RxPackets.Val) ∧
      lookup "stat_tx_packets" s.fields = some (FieldValue.float64 ⟨0x4000000000000000⟩) := by
  refine ⟨rfl, rfl, _,
    ⟨"usw", uswTags sampleSwitchUDM sampleSwitchUDM.swStat,
      uswFields sampleSwitchUDM sampleSwitchUDM.swStat, sampleTime⟩,
    PointsAt_recordSink sampleSwitchUDM sampleTime, by simp, rfl, rfl, ?_, rfl⟩
  decide

/-- The `stat_` fields of the "usw" series as the code fills them: every field
holds the same-named counter of the switch statistics block, except
`stat_rx_packets`, which holds `TxPackets` (udm_influx.go:213). -/
theorem uswFields_stat_counters (u : UDM) (s : Sw) :
    lookup "stat_bytes" (uswFields u s) = some (FieldValue.float64 s.Bytes.Val) ∧
    lookup "stat_rx_bytes" (uswFields u s) = some (FieldValue.float64 s.RxBytes.Val) ∧
    lookup "stat_rx_crypts" (uswFields u s) = some (FieldValue.float64 s.RxCrypts.Val) ∧
    lookup "stat_rx_dropped" (uswFields u s) = some (FieldValue.float64 s.RxDropped.Val) ∧
    lookup "stat_rx_errors" (uswFields u s) = some (FieldValue.float64 s.RxErrors.Val) ∧
    lookup "stat_rx_frags" (uswFields u s) = some (FieldValue.float64 s.RxFrags.Val) ∧
    lookup "stat_rx_packets" (uswFields u s) = some (FieldValue.float64 s.TxPackets.Val) ∧
    lookup "stat_tx_bytes" (uswFields u s) = some (FieldValue.float64 s.TxBytes.Val) ∧
    lookup "stat_tx_dropped" (uswFields u s) = some (FieldValue.float64 s.TxDropped.Val) ∧
    lookup "stat_tx_errors" (uswFields u s) = some (FieldValue.float64 s.TxErrors.Val) ∧
    lookup "stat_tx_packets" (uswFields u s) = some (FieldValue.float64 s.TxPackets.Val) ∧
    lookup "stat_tx_retries" (uswFields u s) = some (FieldValue.float64 s.TxRetries.Val) :=
  ⟨rfl, rfl, rfl, rfl, rfl, rfl, rfl, rfl, rfl, rfl, rfl, rfl⟩

/-- C17: whatever the sink does, `PointsAt` changes its receiver in at most one
way: a nil gateway or switch statistics block is replaced by a zero-valued
block and a block that is present is kept; every other member of the record,
the network table and the port table included, is unchanged; and a second
call on the record left behind, with the same timestamp, returns the same
result (series and error) as the first. -/
theorem PointsAt_receiver_frame {P : Type} (NewPoint : Sink P) (u : UDM) (now : Time) :
    ∃ r, PointsAt NewPoint u now = some r ∧
      r.u = { u with Stat := { gw := some (u.Stat.gw.getD {}), sw := some (u.Stat.sw.getD {}) } } ∧
      (u.Stat.gw = none → r.u.Stat.gw = some {}) ∧
      (∀ g, u.Stat.gw = some g → r.u.Stat.gw = some g) ∧
      (u.Stat.sw = none → r.u.Stat.sw = some {}) ∧
      (∀ s, u.Stat.sw = some s → r.u.Stat.sw = some s) ∧
      r.u.NetworkTable = u.NetworkTable ∧
      r.u.PortTable = u.PortTable ∧
      (u.Stat.gw ≠ none → u.Stat.sw ≠ none → r.u = u) ∧
      PointsAt NewPoint r.u now = some r := by
  obtain ⟨r, hr, hu⟩ := PointsAt_receiver NewPoint u now
  refine ⟨r, hr, ?_, ?_, ?_, ?_, ?_, ?_, ?_, ?_, ?_⟩
  · rw [hu, fillStat_eq]; rfl
  · intro hg
    rw [hu, fillStat_gw, UDM.gwStat, hg]; rfl
  · intro g hg
    rw [hu, fillStat_gw, UDM.gwStat, hg]; rfl
  · intro hs
    rw [hu, fillStat_sw, UDM.swStat, hs]; rfl
  · intro s hs
    rw [hu, fillStat_sw, UDM.swStat, hs]; rfl
  · rw [hu, fillStat_NetworkTable]
  · rw [hu, fillStat_PortTable]
  · intro hg hs
    rw [hu]
    cases u
    cases ‹Stat› with
    | mk g s =>
      cases g with
      | none => exact absurd rfl hg
      | some g =>
        cases s with
        | none => exact absurd rfl hs
        | some s => rfl
  · rw [hu, PointsAt_fillStat, hr]

/-- Instance of C17: the sample record has both blocks nil; after a call with
the sink that rejects the second series both blocks are zero-valued blocks and
the tables are as before. -/
theorem PointsAt_receiver_frame_witness :
    sampleUDM.Stat.gw = none ∧ sampleUDM.Stat.sw = none ∧
    ∃ r, PointsAt rejectUsw sampleUDM sampleTime = some r ∧
      r.u.Stat.gw = some {} ∧ r.u.Stat.sw = some {} ∧
      r.u.NetworkTable = [sampleNetwork] ∧
      r.u.PortTable = [samplePort1, samplePort2] ∧
      PointsAt rejectUsw r.u sampleTime = some r :=
  ⟨rfl, rfl,
   (PointsAt_receiver_frame rejectUsw sampleUDM sampleTime).imp (fun _ h =>
     ⟨h.1, h.2.2.1 rfl, h.2.2.2.2.1 rfl, h.2.2.2.2.2.2.1, h.2.2.2.2.2.2.2.1,
      h.2.2.2.2.2.2.2.2.2⟩)⟩

/-- C18: whenever `FlexInt.UnmarshalJSON` returns an error, because
`json.Unmarshal` failed or because the decoded value has an unaccepted shape,
the numeric value and the text of the receiver are what they were before the
call. -/
theorem FlexInt_UnmarshalJSON_error_keeps_receiver (lib : GoLib) (f : FlexInt) (b : Bytes)
    (h : (FlexInt.UnmarshalJSON lib f b).2 ≠ none) :
    (FlexInt.UnmarshalJSON lib f b).1 = f ∧
    (FlexInt.UnmarshalJSON lib f b).1.Number = f.Number ∧
    (FlexInt.UnmarshalJSON lib f b).1.String = f.String := by
  have key : (FlexInt.UnmarshalJSON lib f b).1 = f := by
    unfold FlexInt.UnmarshalJSON at h ⊢
    cases hd : lib.jsonUnmarshal b with
    | error e => rfl
    | ok v =>
      rw [hd] at h
      cases v with
      | float64 n => exact absurd rfl h
      | string s => exact absurd rfl h
      | null => rfl
      | bool x => rfl
      | slice elems => rfl
      | map members => rfl
  exact ⟨key, by rw [key], by rw [key]⟩

/-- Instance of C18: a FlexInt holding 123 keeps number and text when it is
handed the document `true`, and when it is handed bytes that are not JSON. -/
theorem FlexInt_UnmarshalJSON_error_keeps_receiver_witness :
    (FlexInt.UnmarshalJSON sampleLib { Number := Float64.f123, String := "123" }
      (asciiBytes "true")).2 ≠ none ∧
    (FlexInt.UnmarshalJSON sampleLib { Number := Float64.f123, String := "123" }
      (asciiBytes "true")).1 = { Number := Float64.f123, String := "123" } ∧
    (FlexInt.UnmarshalJSON sampleLib { Number := Float64.f123, String := "123" }
      (asciiBytes "tru")).1 = { Number := Float64.f123, String := "123" } :=
  ⟨by decide,
   (FlexInt_UnmarshalJSON_error_keeps_receiver sampleLib _ (asciiBytes "true") (by decide)).1,
   (FlexInt_UnmarshalJSON_error_keeps_receiver sampleLib _ (asciiBytes "tru") (by decide)).1⟩

/-- C19: every series `PointsAt(t)` hands to the sink is built with timestamp
exactly `t`: with a sink that records what it is handed, each of the
`2 + n + m` series (both device series, every network series, every port
series) carries `t`; and for any two sinks that agree on every series stamped
`t`, the call with timestamp `t` gives the same result, so the sink is never
asked about another timestamp. -/
theorem PointsAt_timestamp (u : UDM) (now : Time) :
    (∃ r, PointsAt recordSink u now = some r ∧
      r.points.length = 2 + u.NetworkTable.length + u.PortTable.length ∧
      ∀ s ∈ r.points, s.time = now) ∧
    (∀ (P : Type) (N N' : Sink P),
      (∀ name tags fields, N name tags fields now = N' name tags fields now) →
      PointsAt N u now = PointsAt N' u now) := by
  refine ⟨⟨_, PointsAt_recordSink u now, ?_, ?_⟩, fun P N N' h => PointsAt_congr N N' u now h⟩
  · simp only [List.length_cons, List.length_append, List.length_map]
    omega
  · intro s hs
    simp only [List.mem_cons, List.mem_append, List.mem_map] at hs
    rcases hs with rfl | rfl | ⟨p, _, rfl⟩ | ⟨p, _, rfl⟩ <;> rfl

/-- Instance of C19: on the sample record at the sample timestamp, a sink that
rejects every other timestamp gives the same five points as the sink that
accepts everything. -/
theorem PointsAt_timestamp_witness :
    (∀ name tags fields, recordSink name tags fields sampleTime =
      sampleTimeSink name tags fields sampleTime) ∧
    PointsAt recordSink sampleUDM sampleTime = PointsAt sampleTimeSink sampleUDM sampleTime :=
  ⟨fun _ _ _ => rfl,
   (PointsAt_timestamp sampleUDM sampleTime).2 Series recordSink sampleTimeSink
     (fun _ _ _ => rfl)⟩

/-! ## Claims about the number and the order of the series -/

/-- A network loop whose series are all accepted appends exactly one point per
entry, the point the sink returned for the series of that entry, in table
order, and reports no error. -/
theorem networkLoop_accept_built {P : Type} (NewPoint : Sink P) (u : UDM) (now : Time)
    (l : List Network) (acc : List P)
    (h : ∀ p ∈ l, ∃ pt,
      NewPoint "usg_networks" (networkTags u p) (networkFields p) now = .ok pt) :
    ∃ pts, networkLoop NewPoint u now l acc = (acc ++ pts, none) ∧
      pts.length = l.length ∧
      ∀ (i : Nat) p, l[i]? = some p → ∃ pt, pts[i]? = some pt ∧
        NewPoint "usg_networks" (networkTags u p) (networkFields p) now = .ok pt := by
  induction l generalizing acc with
  | nil => exact ⟨[], by simp [networkLoop], rfl, by simp⟩
  | cons q tl ih =>
    obtain ⟨pt, hpt⟩ := h q (List.mem_cons_self q tl)
    obtain ⟨pts, hrun, hlen, hidx⟩ :=
      ih (acc ++ [pt]) (fun r hr => h r (List.mem_cons_of_mem q hr))
    refine ⟨pt :: pts, ?_, by simp [hlen], ?_⟩
    · simp only [networkLoop, hpt]
      rw [hrun]
      simp
    · intro i p hp
      cases i with
      | zero =>
        simp only [List.getElem?_cons_zero, Option.some.injEq] at hp
        subst hp
        exact ⟨pt, by simp, hpt⟩
      | succ k =>
        simp only [List.getElem?_cons_succ] at hp
        obtain ⟨pt', h1, h2⟩ := hidx k p hp
        exact ⟨pt', by simpa using h1, h2⟩

/-- A port loop whose series are all accepted appends exactly one point per
entry, the point the sink returned for the series of that entry, in table
order, and reports no error. -/
theorem portLoop_accept_built {P : Type} (NewPoint : Sink P) (u : UDM) (now : Time)
    (l : List Port) (acc : List P)
    (h : ∀ p ∈ l, ∃ pt, NewPoint "usw_ports" (portTags u p) (portFields p) now = .ok pt) :
    ∃ pts, portLoop NewPoint u now l acc = (acc ++ pts, none) ∧
      pts.length = l.length ∧
      ∀ (j : Nat) p, l[j]? = some p → ∃ pt, pts[j]? = some pt ∧
        NewPoint "usw_ports" (portTags u p) (portFields p) now = .ok pt := by
  induction l generalizing acc with
  | nil => exact ⟨[], by simp [portLoop], rfl, by simp⟩
  | cons q tl ih =>
    obtain ⟨pt, hpt⟩ := h q (List.mem_cons_self q tl)
    obtain ⟨pts, hrun, hlen, hidx⟩ :=
      ih (acc ++ [pt]) (fun r hr => h r (List.mem_cons_of_mem q hr))
    refine ⟨pt :: pts, ?_, by simp [hlen], ?_⟩
    · simp only [portLoop, hpt]
      rw [hrun]
      simp
    · intro j p hp
      cases j with
      | zero =>
        simp only [List.getElem?_cons_zero, Option.some.injEq] at hp
        subst hp
        exact ⟨pt, by simp, hpt⟩
      | succ k =>
        simp only [List.getElem?_cons_succ] at hp
        obtain ⟨pt', h1, h2⟩ := hidx k p hp
        exact ⟨pt', by simpa using h1, h2⟩

/-- The result of a call when the sink accepts the series this call builds for
this record at this timestamp (nothing is asked of the sink on other
arguments): the two device points, then the points of the network-table
entries, then the points of the port-table entries, and no error. -/
theorem PointsAt_accept_built {P : Type} (NewPoint : Sink P) (u : UDM) (now : Time)
    (pt0 pt1 : P)
    (h0 : NewPoint "usg" (usgTags u u.gwStat) (usgFields u u.gwStat) now = .ok pt0)
    (h1 : NewPoint "usw" (uswTags u u.swStat) (uswFields u u.swStat) now = .ok pt1)
    (hnet : ∀ p ∈ u.NetworkTable, ∃ pt,
      NewPoint "usg_networks" (networkTags u p) (networkFields p) now = .ok pt)
    (hport : ∀ p ∈ u.PortTable, ∃ pt,
      NewPoint "usw_ports" (portTags u p) (portFields p) now = .ok pt) :
    ∃ nets ports,
      PointsAt NewPoint u now = some ⟨fillStat u, pt0 :: pt1 :: (nets ++ ports), none⟩ ∧
      nets.length = u.NetworkTable.length ∧
      ports.length = u.PortTable.length ∧
      (∀ (i : Nat) p, u.NetworkTable[i]? = some p → ∃ pt, nets[i]? = some pt ∧
        NewPoint "usg_networks" (networkTags u p) (networkFields p) now = .ok pt) ∧
      (∀ (j : Nat) p, u.PortTable[j]? = some p → ∃ pt, ports[j]? = some pt ∧
        NewPoint "usw_ports" (portTags u p) (portFields p) now = .ok pt) := by
  obtain ⟨nets, hN, hNlen, hNidx⟩ :=
    networkLoop_accept_built NewPoint u now u.NetworkTable [pt0, pt1] hnet
  obtain ⟨ports, hP, hPlen, hPidx⟩ :=
    portLoop_accept_built NewPoint u now u.PortTable ([pt0, pt1] ++ nets) hport
  refine ⟨nets, ports, ?_, hNlen, hPlen, hNidx, hPidx⟩
  rw [PointsAt_eq, h0, h1]
  simp only []
  rw [hN]
  simp only []
  rw [hP]
  simp

/-- C1: for every record with `n` network-table entries and `m` port-table
entries and every timestamp, if the sink accepts every series the call builds
(the two device series and the series of every table entry, at this
timestamp), `PointsAt` returns no error and exactly `2 + n + m` points: the
point of the "usg" series and the point of the "usw" series, then exactly one
point per network-table entry and exactly one per port-table entry, each the
point the sink returned for the series of that entry. -/
theorem PointsAt_count {P : Type} (NewPoint : Sink P) (u : UDM) (now : Time)
    (pt0 pt1 : P)
    (h0 : NewPoint "usg" (usgTags u u.gwStat) (usgFields u u.gwStat) now = .ok pt0)
    (h1 : NewPoint "usw" (uswTags u u.swStat) (uswFields u u.swStat) now = .ok pt1)
    (hnet : ∀ p ∈ u.NetworkTable, ∃ pt,
      NewPoint "usg_networks" (networkTags u p) (networkFields p) now = .ok pt)
    (hport : ∀ p ∈ u.PortTable, ∃ pt,
      NewPoint "usw_ports" (portTags u p) (portFields p) now = .ok pt) :
    ∃ r nets ports, PointsAt NewPoint u now = some r ∧ r.err = none ∧
      r.points = pt0 :: pt1 :: (nets ++ ports) ∧
      r.points.length = 2 + u.NetworkTable.length + u.PortTable.length ∧
      nets.length = u.NetworkTable.length ∧
      ports.length = u.PortTable.length ∧
      (∀ (i : Nat) p, u.NetworkTable[i]? = some p → ∃ pt, nets[i]? = some pt ∧
        NewPoint "usg_networks" (networkTags u p) (networkFields p) now = .ok pt) ∧
      (∀ (j : Nat) p, u.PortTable[j]? = some p → ∃ pt, ports[j]? = some pt ∧
        NewPoint "usw_ports" (portTags u p) (portFields p) now = .ok pt) := by
  obtain ⟨nets, ports, hrun, hNlen, hPlen, hNidx, hPidx⟩ :=
    PointsAt_accept_built NewPoint u now pt0 pt1 h0 h1 hnet hport
  refine ⟨_, nets, ports, hrun, rfl, rfl, ?_, hNlen, hPlen, hNidx, hPidx⟩
  simp only [List.length_cons, List.length_append, hNlen, hPlen]
  omega

/-- Instance of C1 with a sink that accepts the series of the sample record at
the sample timestamp but rejects every other timestamp: one network entry and
two port entries yield five points and no error. -/
theorem PointsAt_count_witness :
    sampleTimeSink "usg" (usgTags sampleUDM sampleUDM.gwStat)
        (usgFields sampleUDM sampleUDM.gwStat) sampleTime =
      .ok ⟨"usg", usgTags sampleUDM sampleUDM.gwStat, usgFields sampleUDM sampleUDM.gwStat,
        sampleTime⟩ ∧
    sampleTimeSink "usw" (uswTags sampleUDM sampleUDM.swStat)
        (uswFields sampleUDM sampleUDM.swStat) sampleTime =
      .ok ⟨"usw", uswTags sampleUDM sampleUDM.swStat, uswFields sampleUDM sampleUDM.swStat,
        sampleTime⟩ ∧
    (∀ p ∈ sampleUDM.NetworkTable, ∃ pt,
      sampleTimeSink "usg_networks" (networkTags sampleUDM p) (networkFields p) sampleTime
        = .ok pt) ∧
    (∀ p ∈ sampleUDM.PortTable, ∃ pt,
      sampleTimeSink "usw_ports" (portTags sampleUDM p) (portFields p) sampleTime = .ok pt) ∧
    ∃ r, PointsAt sampleTimeSink sampleUDM sampleTime = some r ∧ r.err = none ∧
      r.points.length = 5 :=
  ⟨rfl, rfl, fun _ _ => ⟨_, rfl⟩, fun _ _ => ⟨_, rfl⟩,
   let ⟨r, _, _, h⟩ := PointsAt_count sampleTimeSink sampleUDM sampleTime _ _ rfl rfl
     (fun _ _ => ⟨_, rfl⟩) (fun _ _ => ⟨_, rfl⟩)
   ⟨r, h.1, h.2.1, h.2.2.2.1⟩⟩

/-- C2: for every record and timestamp for which the sink accepts every series
the call builds, the returned sequence is in fixed order: the point of the
gateway-role ("usg") series at index 0, the point of the switch-role ("usw")
series at index 1, the point of network-table entry `i` at index `2 + i`, the
point of port-table entry `j` at index `2 + len(NetworkTable) + j`, and
nothing else; a second run on the record the first run leaves behind, with
the same timestamp, returns the same result. -/
theorem PointsAt_order {P : Type} (NewPoint : Sink P) (u : UDM) (now : Time)
    (pt0 pt1 : P)
    (h0 : NewPoint "usg" (usgTags u u.gwStat) (usgFields u u.gwStat) now = .ok pt0)
    (h1 : NewPoint "usw" (uswTags u u.swStat) (uswFields u u.swStat) now = .ok pt1)
    (hnet : ∀ p ∈ u.NetworkTable, ∃ pt,
      NewPoint "usg_networks" (networkTags u p) (networkFields p) now = .ok pt)
    (hport : ∀ p ∈ u.PortTable, ∃ pt,
      NewPoint "usw_ports" (portTags u p) (portFields p) now = .ok pt) :
    ∃ r, PointsAt NewPoint u now = some r ∧ r.err = none ∧
    (∃ pt, r.points[0]? = some pt ∧
      NewPoint "usg" (usgTags u u.gwStat) (usgFields u u.gwStat) now = .ok pt) ∧
    (∃ pt, r.points[1]? = some pt ∧
      NewPoint "usw" (uswTags u u.swStat) (uswFields u u.swStat) now = .ok pt) ∧
    (∀ i p, u.NetworkTable[i]? = some p →
      ∃ pt, r.points[2 + i]? = some pt ∧
        NewPoint "usg_networks" (networkTags u p) (networkFields p) now = .ok pt) ∧
    (∀ j p, u.PortTable[j]? = some p →
      ∃ pt, r.points[2 + u.NetworkTable.length + j]? = some pt ∧
        NewPoint "usw_ports" (portTags u p) (portFields p) now = .ok pt) ∧
    r.points.length = 2 + u.NetworkTable.length + u.PortTable.length ∧
    PointsAt NewPoint r.u now = some r := by
  obtain ⟨nets, ports, hrun, hNlen, hPlen, hNidx, hPidx⟩ :=
    PointsAt_accept_built NewPoint u now pt0 pt1 h0 h1 hnet hport
  refine ⟨_, hrun, rfl, ⟨pt0, rfl, h0⟩, ⟨pt1, by simp, h1⟩, ?_, ?_, ?_, ?_⟩
  · intro i p hp
    obtain ⟨pt, hpt, hsink⟩ := hNidx i p hp
    refine ⟨pt, ?_, hsink⟩
    have hi : i < nets.length := (List.getElem?_eq_some_iff.mp hpt).1
    rw [show 2 + i = i + 1 + 1 by omega]
    simp only [List.getElem?_cons_succ]
    rw [List.getElem?_append_left hi, hpt]
  · intro j p hp
    obtain ⟨pt, hpt, hsink⟩ := hPidx j p hp
    refine ⟨pt, ?_, hsink⟩
    rw [show 2 + u.NetworkTable.length + j = (nets.length + j) + 1 + 1 by omega]
    simp only [List.getElem?_cons_succ]
    rw [List.getElem?_append_right (by omega), Nat.add_sub_cancel_left, hpt]
  · simp only [List.length_cons, List.length_append, hNlen, hPlen]
    omega
  · show PointsAt NewPoint (fillStat u) now = _
    rw [PointsAt_fillStat, hrun]

/-- Instance of C2 with a sink that accepts the series of the sample record at
the sample timestamp but rejects every other timestamp: index 4 holds the
series of the second port-table entry. -/
theorem PointsAt_order_witness :
    sampleTimeSink "usg" (usgTags sampleUDM sampleUDM.gwStat)
        (usgFields sampleUDM sampleUDM.gwStat) sampleTime =
      .ok ⟨"usg", usgTags sampleUDM sampleUDM.gwStat, usgFields sampleUDM sampleUDM.gwStat,
        sampleTime⟩ ∧
    sampleTimeSink "usw" (uswTags sampleUDM sampleUDM.swStat)
        (uswFields sampleUDM sampleUDM.swStat) sampleTime =
      .ok ⟨"usw", uswTags sampleUDM sampleUDM.swStat, uswFields sampleUDM sampleUDM.swStat,
        sampleTime⟩ ∧
    (∀ p ∈ sampleUDM.NetworkTable, ∃ pt,
      sampleTimeSink "usg_networks" (networkTags sampleUDM p) (networkFields p) sampleTime
        = .ok pt) ∧
    (∀ p ∈ sampleUDM.PortTable, ∃ pt,
      sampleTimeSink "usw_ports" (portTags sampleUDM p) (portFields p) sampleTime = .ok pt) ∧
    sampleUDM.PortTable[1]? = some samplePort2 ∧
    ∃ r, PointsAt sampleTimeSink sampleUDM sampleTime = some r ∧
      ∃ pt, r.points[2 + sampleUDM.NetworkTable.length + 1]? = some pt ∧
        sampleTimeSink "usw_ports" (portTags sampleUDM samplePort2) (portFields samplePort2)
          sampleTime = .ok pt :=
  ⟨rfl, rfl, fun _ _ => ⟨_, rfl⟩, fun _ _ => ⟨_, rfl⟩, rfl,
   (PointsAt_order sampleTimeSink sampleUDM sampleTime _ _ rfl rfl
      (fun _ _ => ⟨_, rfl⟩) (fun _ _ => ⟨_, rfl⟩)).imp
     (fun _ h => ⟨h.1, h.2.2.2.2.2.1 1 samplePort2 rfl⟩)⟩

end Unifi
